import Mathlib

/-!
Shallow embedding of the email-creation pipeline
(`src/utils/orchestration/orchestrator.py`, `src/utils/agents/*.py`,
`src/utils/services/ai_service.py`, `src/utils/services/template_service.py`).

External capabilities (the Gemini text/image calls, JSON parsing, Jinja
rendering, the template directory listing and the wall clock) are modelled as
an `Oracle` record supplied to each function; every other computation is
translated directly from the Python source.  Python dicts are modelled as
association lists with first-binding-wins lookup; a merge `{**a, **b}` is
`b ++ a` under that lookup discipline.  Fallible Python code returns
`Except EmailError`.
-/

namespace EmailCreation

/-- Python dict lookup: the first binding for a key wins. -/
def alookup {α : Type} (k : String) : List (String × α) → Option α
  | [] => none
  | (k', v) :: rest => if k' = k then some v else alookup k rest

/-- Python `k in d`. -/
def containsKey {α : Type} (k : String) (m : List (String × α)) : Bool :=
  (alookup k m).isSome

/-- Python `{**a, **b}` (bindings of `b` override those of `a`) under
    first-binding-wins lookup. -/
def dictMerge {α : Type} (a b : List (String × α)) : List (String × α) :=
  b ++ a

/-- Python dict assignment `d[k] = v`: replace an existing binding, else append. -/
def setKey {α : Type} (k : String) (v : α) (m : List (String × α)) :
    List (String × α) :=
  if containsKey k m then m.map (fun p => if p.1 = k then (k, v) else p)
  else m ++ [(k, v)]

/-- Python dict: a content map as produced by the agents (string keys/values). -/
abbrev CMap := List (String × String)

/-- Does list `n` occur at the head of list `h`? -/
def leadsWith : List Char → List Char → Bool
  | [], _ => true
  | _ :: _, [] => false
  | a :: as, b :: bs => a == b && leadsWith as bs

/-- Helper for `pyIn`: contiguous-sublist test. -/
def pyInAux (n : List Char) : List Char → Bool
  | [] => n.isEmpty
  | c :: rest => leadsWith n (c :: rest) || pyInAux n rest

/-- Python substring test `needle in hay`. -/
def pyIn (needle hay : String) : Bool :=
  pyInAux needle.toList hay.toList

/-!
The embedding uses its own structural-recursion versions of the string
primitives the Python code relies on (`strip`, `startswith`, `endswith`,
`lower`, `split('\n')`, `'\n'.join`), because the corresponding library
functions are defined by well-founded recursion over byte positions and do
not evaluate inside the kernel.  Each is the evident character-list
implementation of the CPython behaviour on the inputs the code handles.
-/

/-- Python `s.strip()`: drop leading and trailing whitespace. -/
def pyStrip (s : String) : String :=
  ⟨((s.toList.dropWhile Char.isWhitespace).reverse.dropWhile Char.isWhitespace).reverse⟩

/-- Python `s.startswith(pre)`. -/
def pyStartsWith (s pre : String) : Bool :=
  leadsWith pre.toList s.toList

/-- Python `s.endswith(suf)`. -/
def pyEndsWith (s suf : String) : Bool :=
  leadsWith suf.toList.reverse s.toList.reverse

/-- Python `s.lower()` (character-wise; all strings involved are ASCII). -/
def pyLower (s : String) : String :=
  ⟨s.toList.map Char.toLower⟩

/-- Helper for `pySplitLines`: split at every newline character. -/
def splitLinesAux (cur : List Char) : List Char → List (List Char)
  | [] => [cur.reverse]
  | c :: rest =>
      if c = '\n' then cur.reverse :: splitLinesAux [] rest
      else splitLinesAux (c :: cur) rest

/-- Python `s.split('\n')`. -/
def pySplitLines (s : String) : List String :=
  (splitLinesAux [] s.toList).map (fun l => ⟨l⟩)

/-- Helper for `pyJoinLines`. -/
def joinLinesAux : List (List Char) → List Char
  | [] => []
  | [l] => l
  | l :: rest => l ++ '\n' :: joinLinesAux rest

/-- Python `'\n'.join(lines)`. -/
def pyJoinLines (ls : List String) : String :=
  ⟨joinLinesAux (ls.map (fun s => s.toList))⟩

/-- The exception classes of `src/utils/core/exceptions.py` that the embedded
    code can raise (plus the builtin `KeyError`/`IndexError` that dict/list
    indexing can raise). -/
inductive EmailError
  | emailCreationError (msg : String)
  | templateSelectionError (msg : String)
  | contentGenerationError (msg : String)
  | emailCompilationError (msg : String)
  | aiServiceError (service : String) (msg : String)
  | templateError (msg : String)
  | keyError (key : String)
  | attributeError (msg : String)
  | indexError
deriving DecidableEq, Repr

/-- Python `str(e)` on the exceptions above.  `AIServiceError.__init__` passes
    `f"{service_name} error: {message}"` to `Exception`.  (CPython renders
    `str(KeyError(k))` with repr quotes around the key and
    `str(IndexError(...))` as "list index out of range"; the quoting detail is
    immaterial to every claim and elided.) -/
def EmailError.toStr : EmailError → String
  | .emailCreationError m => m
  | .templateSelectionError m => m
  | .contentGenerationError m => m
  | .emailCompilationError m => m
  | .aiServiceError s m => s ++ " error: " ++ m
  | .templateError m => m
  | .keyError k => k
  | .attributeError m => m
  | .indexError => "list index out of range"

/-- `Except.isOk` (local copy so the development is self-contained). -/
def exceptOk {ε α : Type} : Except ε α → Bool
  | .ok _ => true
  | .error _ => false

/-- A value rendered into the Jinja variable map in
    `TemplateService.render_template`: strings, `cta_button`
    (`bool(content.get('cta_text'))`) and `year` (`datetime.now().year`). -/
inductive TemplateValue
  | str (s : String)
  | bool (b : Bool)
  | int (n : Nat)
deriving DecidableEq, Repr

/-- A status emission `update_status(status, progress)` /
    `_update_status_display(stage, status, progress)`.  Every progress
    fraction in the source is a float that is a multiple of 0.1; progress is
    embedded in tenths (0.3 ↦ 3, …, 1.0 ↦ 10), which preserves the ordering
    and equality of the emitted values while keeping kernel evaluation
    decidable. -/
abbrev StatusEvent := String × Nat

/-- The terminal progress value 1.0 (in tenths). -/
def progressDone : Nat := 10

/-- The external capabilities the pipeline consumes, fixed per run:

    * `availableTemplates` — `TemplateService.get_available_templates()`
      (a directory listing);
    * `chooseTemplateResponse` — outcome of the
      `client.models.generate_content` call in
      `GeminiService.select_template` (`response.text`, or the message of a
      raised exception).  The prompt built from the candidate list is consumed
      only by the external model, so the response is a per-run constant;
    * `contentResponse` — likewise for `GeminiService.generate_email_content`
      (`response.text` before cleanup/parsing);
    * `parseJson` — `json.loads` on the cleaned response text (`.error` is the
      `json.JSONDecodeError` message);
    * `contentImage` / `compileImage` — outcomes of
      `client.models.generate_images` per prompt, for the calls issued during
      the content-generation stage and the compilation stage respectively
      (`.ok` carries the base64-encoded image bytes);
    * `jinjaRender` — `self.env.get_template(name).render(**vars)` (a
      `TemplateNotFound` or rendering exception is `.error`);
    * `year` — `datetime.now().year`. -/
structure Oracle where
  availableTemplates : List String
  chooseTemplateResponse : Except String String
  contentResponse : Except String String
  parseJson : String → Except String CMap
  contentImage : String → Except String String
  compileImage : String → Except String String
  jinjaRender : String → List (String × TemplateValue) → Except String String
  year : Nat

/-! ## `GeminiService` (src/utils/services/ai_service.py) -/

namespace GeminiService

/-- `GeminiService.select_template` (ai_service.py lines 36-97): build a prompt
    from the candidate descriptions, call the model, and return
    `response.text.strip()`; any exception from the call is wrapped as
    `AIServiceError(f"Template selection failed: {str(e)}", "Gemini")`. -/
def select_template (o : Oracle) : Except EmailError String :=
  match o.chooseTemplateResponse with
  | .error e => .error (.aiServiceError "Gemini" ("Template selection failed: " ++ e))
  | .ok text => .ok (pyStrip text)

/-- `GeminiService.generate_image` (ai_service.py lines 194-226): on success
    the base64-encoded bytes are wrapped into a data URL; any exception
    resolves to the fixed placeholder URL instead of propagating.  `img` is the
    per-stage image capability (`Oracle.contentImage` or `Oracle.compileImage`). -/
def generate_image (img : String → Except String String) (prompt : String) : String :=
  match img prompt with
  | .ok b64 => "data:image/png;base64," ++ b64
  | .error _ => "https://via.placeholder.com/500x300"

end GeminiService

/-! ## Template selector (src/utils/agents/template_selector.py) -/

/-- The fixed keyword table of `GeminiTemplateSelector.select_template`
    (lines 62-69), in source order. -/
def template_mapping : List (String × String) :=
  [("welcome", "welcome/welcome_email.html"),
   ("onboarding", "welcome/welcome_email.html"),
   ("product launch", "announcements/product_launch.html"),
   ("announcement", "announcements/product_launch.html"),
   ("newsletter", "newsletters/monthly_newsletter.html"),
   ("monthly", "newsletters/monthly_newsletter.html")]

/-- The keyword pass (lines 74-78): first table entry whose keyword occurs
    case-insensitively in the campaign intent AND whose mapped template is in
    the candidate list; a keyword match whose template is absent does not stop
    the scan. -/
def keywordLookup (campaign_intent : String) (templates : List String) : Option String :=
  (template_mapping.find?
      (fun p => pyIn (pyLower p.1) (pyLower campaign_intent) && templates.contains p.2)).map
    (fun p => p.2)

/-- The fuzzy pass (lines 81-84): first candidate containing the returned
    identifier case-insensitively.  (The source checks only
    `template.lower() in t.lower()`, not the reverse direction.) -/
def fuzzyLookup (template : String) (templates : List String) : Option String :=
  templates.find? (fun t => pyIn (pyLower template) (pyLower t))

/-- The resolution cascade of `GeminiTemplateSelector.select_template`
    (lines 72-87), for a nonempty `templates` list: exact membership, then the
    keyword pass, then the fuzzy pass, then `templates[0]` (written `headD`;
    the call site has established `templates ≠ []`). -/
def resolveTemplate (template campaign_intent : String) (templates : List String) : String :=
  if templates.contains template then template
  else
    match keywordLookup campaign_intent templates with
    | some mapped => mapped
    | none =>
      match fuzzyLookup template templates with
      | some t => t
      | none => templates.headD ""

/-- `GeminiTemplateSelector.select_template` (lines 30-94).  Returns the
    result together with the `update_status` emissions of the template stage.
    On any exception the agent emits `("Error: " ++ str(e), 10)` and re-raises
    `TemplateSelectionError(f"Template selection failed: {str(e)}")`. -/
def select_template (o : Oracle) (campaign_intent : String) (templates0 : List String) :
    Except EmailError String × List StatusEvent :=
  let ev1 : StatusEvent := ("Analyzing campaign intent", 3)
  -- `if not templates:` — fall back to the template service listing
  let templates := if templates0.isEmpty then o.availableTemplates else templates0
  if templates.isEmpty then
    (.error (.templateSelectionError "Template selection failed: No templates available"),
     [ev1, ("Error: No templates available", 10)])
  else
    let ev2 : StatusEvent := ("Evaluating templates", 6)
    match GeminiService.select_template o with
    | .error e =>
        (.error (.templateSelectionError ("Template selection failed: " ++ e.toStr)),
         [ev1, ev2, ("Error: " ++ e.toStr, 10)])
    | .ok template =>
        -- `if not template:` — the stripped response is empty
        if template = "" then
          (.error (.templateSelectionError "Template selection failed: No suitable template found"),
           [ev1, ev2, ("Error: No suitable template found", 10)])
        else
          (.ok (resolveTemplate template campaign_intent templates),
           [ev1, ev2, ("Template selected", 10)])

/-! ## Content generator (src/utils/agents/content_generator.py and
    `GeminiService.generate_email_content` in ai_service.py) -/

/-- Drop everything from the last newline on: Python `s.rsplit('\n', 1)[0]`
    (when `s` has no newline this is `s` itself). -/
def dropLastLine (s : String) : String :=
  match pySplitLines s with
  | [] => s
  | [x] => x
  | xs => pyJoinLines xs.dropLast

/-- The response cleanup of `GeminiService.generate_email_content`
    (ai_service.py lines 163-170): strip, drop a leading code-fence line, drop
    a trailing code-fence line.  `text.split('\n', 1)[1]` raises `IndexError`
    when the fenced text has no newline. -/
def cleanResponseText (raw : String) : Except EmailError String :=
  let text := pyStrip raw
  if pyStartsWith text "```" then
    match pySplitLines text with
    | [] => .error .indexError   -- unreachable: the split never returns []
    | [_] => .error .indexError  -- Python `text.split('\n', 1)[1]` out of range
    | _ :: rest =>
        let text := pyJoinLines rest
        .ok (if pyEndsWith text "```" then dropLastLine text else text)
  else
    .ok (if pyEndsWith text "```" then dropLastLine text else text)

/-- The 14 required text fields, as listed both in
    `GeminiService.generate_email_content` (ai_service.py lines 175-180) and in
    `GeminiContentGenerator.generate_content` (content_generator.py lines
    54-59).  The source uses a set literal; only membership is ever queried. -/
def requiredKeys : List String :=
  ["subject", "preheader", "headline", "subheadline", "welcome_message",
   "company_name", "feature1_title", "feature1_text", "feature2_title",
   "feature2_text", "highlight_title", "highlight_text", "cta_headline",
   "cta_text"]

/-- The four image keys added by `_generate_email_images`. -/
def imageKeys : List String :=
  ["HERO_IMAGE", "FEATURE1_IMAGE", "FEATURE2_IMAGE", "HIGHLIGHT_IMAGE"]

namespace GeminiService

/-- `GeminiService.generate_email_content` (ai_service.py lines 99-192):
    call the model, clean the response text, `json.loads` it, and check the 14
    required keys.  `json.JSONDecodeError`/`ValueError` are wrapped as
    `ContentGenerationError("Error parsing Gemini response: ...")`; any other
    exception (the network call, the `IndexError` from the fence cleanup) as
    `AIServiceError(f"Content generation failed: {str(e)}", "Gemini")`.
    (The `ValueError` text interpolates a Python set of the missing keys; the
    set formatting is elided and the keys joined in `requiredKeys` order.) -/
def generate_email_content (o : Oracle) : Except EmailError CMap :=
  match o.contentResponse with
  | .error e => .error (.aiServiceError "Gemini" ("Content generation failed: " ++ e))
  | .ok raw =>
    match cleanResponseText raw with
    | .error e =>
        .error (.aiServiceError "Gemini" ("Content generation failed: " ++ e.toStr))
    | .ok text =>
      match o.parseJson text with
      | .error msg =>
          .error (.contentGenerationError
            ("Error parsing Gemini response: " ++ msg ++ ". Raw response: " ++ raw))
      | .ok content =>
          if requiredKeys.all (fun k => containsKey k content) then .ok content
          else
            .error (.contentGenerationError
              ("Error parsing Gemini response: Missing required content fields: " ++
                String.intercalate ", "
                  (requiredKeys.filter (fun k => !containsKey k content)) ++
                ". Raw response: " ++ raw))

end GeminiService

/-- Python `content[k]`: raises `KeyError` when the key is absent. -/
def getItem (content : CMap) (k : String) : Except EmailError String :=
  match alookup k content with
  | some v => .ok v
  | none => .error (.keyError k)

/-- The hero-image prompt of `_generate_email_images` (identical text in
    content_generator.py lines 91-108 and html_compiler.py lines 86-103; the
    indentation of the f-string literal/blank lines are normalised to single
    newlines, which no claim inspects). -/
def hero_prompt (company_name welcome_message : String) : String :=
  "Create a professional, minimalist hero banner image for " ++ company_name ++ ".\n" ++
  "Concept: " ++ welcome_message ++ "\n" ++
  "STYLE REQUIREMENTS:\n" ++
  "- Clean, modern aesthetic with subtle color palette\n" ++
  "- Minimalist composition with plenty of negative space\n" ++
  "- High-end corporate/professional look\n" ++
  "- Photorealistic, not illustrated or cartoon-like\n" ++
  "- Subtle lighting effects and shadows for depth\n" ++
  "IMPORTANT RESTRICTIONS:\n" ++
  "- NO TEXT whatsoever in the image\n" ++
  "- NO logos or explicit branding elements\n" ++
  "- NO busy patterns or distracting elements\n" ++
  "- NO people with recognizable faces\n" ++
  "- Image should be abstract enough to work in any industry"

/-- The first feature-image prompt (content_generator.py lines 112-129 /
    html_compiler.py lines 107-124). -/
def feature1_prompt (feature1_title feature1_text : String) : String :=
  "Create a professional image representing the concept: " ++ feature1_title ++ "\n" ++
  "Core idea to convey: " ++ feature1_text ++ "\n" ++
  "STYLE REQUIREMENTS:\n" ++
  "- Elegant, minimalist design with a single clear focal point\n" ++
  "- Soft, professional color palette that complements corporate branding\n" ++
  "- Clean lines and simple geometry\n" ++
  "- High-quality photorealistic rendering\n" ++
  "- Subtle shadows and lighting for dimension\n" ++
  "IMPORTANT RESTRICTIONS:\n" ++
  "- NO TEXT or typography elements whatsoever\n" ++
  "- NO cluttered compositions or busy backgrounds\n" ++
  "- NO cartoon-style illustrations\n" ++
  "- NO literal interpretations that look like stock photos\n" ++
  "- Image should use abstract visual metaphors rather than literal representations"

/-- The second feature-image prompt (content_generator.py lines 132-150 /
    html_compiler.py lines 127-145). -/
def feature2_prompt (feature2_title feature2_text : String) : String :=
  "Create a professional image representing the concept: " ++ feature2_title ++ "\n" ++
  "Core idea to convey: " ++ feature2_text ++ "\n" ++
  "STYLE REQUIREMENTS:\n" ++
  "- Elegant, minimalist design with a single clear focal point\n" ++
  "- Soft, professional color palette matching the first feature image\n" ++
  "- Clean lines and simple geometry\n" ++
  "- High-quality photorealistic rendering\n" ++
  "- Subtle shadows and lighting for dimension\n" ++
  "IMPORTANT RESTRICTIONS:\n" ++
  "- NO TEXT or typography elements whatsoever\n" ++
  "- NO cluttered compositions or busy backgrounds\n" ++
  "- NO cartoon-style illustrations\n" ++
  "- NO literal interpretations that look like stock photos\n" ++
  "- Image should use abstract visual metaphors rather than literal representations\n" ++
  "- MUST visually complement the first feature image in style and tone"

/-- The highlight-image prompt (content_generator.py lines 154-172 /
    html_compiler.py lines 149-167). -/
def highlight_prompt (highlight_title highlight_text : String) : String :=
  "Create a premium, eye-catching image for the key highlight: " ++ highlight_title ++ "\n" ++
  "Core message to convey: " ++ highlight_text ++ "\n" ++
  "STYLE REQUIREMENTS:\n" ++
  "- Bold, sophisticated design with strong visual impact\n" ++
  "- Rich, premium color palette that stands out while complementing the other images\n" ++
  "- Elegant composition with a clear focal point\n" ++
  "- High-end photorealistic rendering with depth and dimension\n" ++
  "- Professional lighting effects that create visual interest\n" ++
  "IMPORTANT RESTRICTIONS:\n" ++
  "- ABSOLUTELY NO TEXT or typography elements\n" ++
  "- NO generic stock photo look or cliched business imagery\n" ++
  "- NO cluttered or busy compositions\n" ++
  "- NO cartoon-style illustrations\n" ++
  "- Image should use sophisticated visual metaphors that feel premium and exclusive\n" ++
  "- Must harmonize with the other images while being slightly more impactful"

/-- `_generate_email_images` — the method bodies in
    `GeminiContentGenerator` (content_generator.py lines 78-175) and
    `GeminiHtmlCompiler` (html_compiler.py lines 73-170) are character-for-
    character identical, so both are embedded by this one definition, applied
    to the image capability of each stage.  Each `content[...]` access can raise
    `KeyError`; each of the four `generate_image` calls degrades internally to
    the placeholder and never fails. -/
def generate_email_images (img : String → Except String String) (content : CMap) :
    Except EmailError CMap :=
  match getItem content "company_name" with
  | .error e => .error e
  | .ok company_name =>
  match getItem content "welcome_message" with
  | .error e => .error e
  | .ok welcome_message =>
  let hero := GeminiService.generate_image img (hero_prompt company_name welcome_message)
  match getItem content "feature1_title" with
  | .error e => .error e
  | .ok feature1_title =>
  match getItem content "feature1_text" with
  | .error e => .error e
  | .ok feature1_text =>
  let feature1 := GeminiService.generate_image img (feature1_prompt feature1_title feature1_text)
  match getItem content "feature2_title" with
  | .error e => .error e
  | .ok feature2_title =>
  match getItem content "feature2_text" with
  | .error e => .error e
  | .ok feature2_text =>
  let feature2 := GeminiService.generate_image img (feature2_prompt feature2_title feature2_text)
  match getItem content "highlight_title" with
  | .error e => .error e
  | .ok highlight_title =>
  match getItem content "highlight_text" with
  | .error e => .error e
  | .ok highlight_text =>
  let highlight := GeminiService.generate_image img (highlight_prompt highlight_title highlight_text)
  .ok [("HERO_IMAGE", hero), ("FEATURE1_IMAGE", feature1),
       ("FEATURE2_IMAGE", feature2), ("HIGHLIGHT_IMAGE", highlight)]

/-- `GeminiContentGenerator.generate_content` (content_generator.py lines
    28-76), with its `update_status` emissions.  `contact` and
    `campaign_purpose` feed only the prompt handed to the external model (whose
    outcome `Oracle.contentResponse` already fixes).  Any exception is
    re-raised as `ContentGenerationError(f"Content generation failed: {str(e)}")`
    after emitting `("Error: " ++ str(e), 10)`. -/
def generate_content (o : Oracle) (contact : CMap) (campaign_purpose : String) :
    Except EmailError CMap × List StatusEvent :=
  let _ := contact
  let _ := campaign_purpose
  let ev1 : StatusEvent := ("Analyzing contact data", 1)
  let ev2 : StatusEvent := ("Generating text content", 3)
  match GeminiService.generate_email_content o with
  | .error e =>
      (.error (.contentGenerationError ("Content generation failed: " ++ e.toStr)),
       [ev1, ev2, ("Error: " ++ e.toStr, 10)])
  | .ok content =>
    -- `if not content:` — an empty dict is falsy
    if content.isEmpty then
      (.error (.contentGenerationError "Content generation failed: Failed to generate content"),
       [ev1, ev2, ("Error: Failed to generate content", 10)])
    else
      let missing := requiredKeys.filter (fun k => !containsKey k content)
      if !missing.isEmpty then
        (.error (.contentGenerationError
            ("Content generation failed: Missing required content fields: " ++
              String.intercalate ", " missing)),
         [ev1, ev2, ("Error: Missing required content fields: " ++
              String.intercalate ", " missing, 10)])
      else
        let ev3 : StatusEvent := ("Generating images", 5)
        match generate_email_images o.contentImage content with
        | .error e =>
            (.error (.contentGenerationError ("Content generation failed: " ++ e.toStr)),
             [ev1, ev2, ev3, ("Error: " ++ e.toStr, 10)])
        | .ok images =>
            (.ok (dictMerge content images),
             [ev1, ev2, ev3, ("Content ready", 10)])

/-! ## Compiler (src/utils/agents/html_compiler.py and
    `TemplateService.render_template` in template_service.py) -/

/-- Python dict iteration order for an association list that may hold
    shadowed bindings: keep the first binding of each key. -/
def dedupKeysAux {α : Type} (seen : List String) : List (String × α) → List (String × α)
  | [] => []
  | p :: rest =>
      if seen.contains p.1 then dedupKeysAux seen rest
      else p :: dedupKeysAux (p.1 :: seen) rest

/-- `d.items()` for our association lists: one entry per key, first binding wins. -/
def dedupKeys {α : Type} (m : List (String × α)) : List (String × α) :=
  dedupKeysAux [] m

/-- `bool(content.get('cta_text'))`: `None` and the empty string are falsy. -/
def pyTruthy : Option String → Bool
  | none => false
  | some s => !(decide (s = ""))

/-- The image-key pass of `TemplateService.render_template` (template_service.py
    lines 144-147): every `*_IMAGE` entry of the content dict is copied into the
    variable map. -/
def imageVars (content : CMap) : List (String × TemplateValue) :=
  ((dedupKeys content).filter (fun p => pyEndsWith p.1 "_IMAGE")).map
    (fun p => (p.1, TemplateValue.str p.2))

/-- The `template_vars` dict of `TemplateService.render_template`
    (template_service.py lines 104-147).  None of the fixed keys ends in
    `_IMAGE`, so listing the copied image entries first is equivalent to the
    Python dict updates under first-binding-wins lookup. -/
def template_vars (year : Nat) (content : CMap) : List (String × TemplateValue) :=
  imageVars content ++
  [("subject", .str ((alookup "subject" content).getD "")),
   ("preheader", .str ((alookup "preheader" content).getD "")),
   ("headline", .str ((alookup "headline" content).getD "")),
   ("subheadline", .str ((alookup "subheadline" content).getD "")),
   ("welcome_message", .str ((alookup "welcome_message" content).getD "")),
   ("company_name", .str ((alookup "company_name" content).getD "")),
   ("company_address", .str ((alookup "company_address" content).getD "")),
   ("logo_url", .str ((alookup "logo_url" content).getD "")),
   ("feature1_title", .str ((alookup "feature1_title" content).getD "")),
   ("feature1_text", .str ((alookup "feature1_text" content).getD "")),
   ("feature2_title", .str ((alookup "feature2_title" content).getD "")),
   ("feature2_text", .str ((alookup "feature2_text" content).getD "")),
   ("highlight_title", .str ((alookup "highlight_title" content).getD "")),
   ("highlight_text", .str ((alookup "highlight_text" content).getD "")),
   ("cta_headline", .str ((alookup "cta_headline" content).getD "")),
   ("cta_text", .str ((alookup "cta_text" content).getD "")),
   ("cta_button", .bool (pyTruthy (alookup "cta_text" content))),
   ("cta_url", .str ((alookup "cta_url" content).getD "#")),
   ("privacy_link", .str ((alookup "privacy_link" content).getD "#")),
   ("terms_link", .str ((alookup "terms_link" content).getD "#")),
   ("unsubscribe_link", .str ((alookup "unsubscribe_link" content).getD "#")),
   ("year", .int year)]

namespace TemplateService

/-- `TemplateService.render_template` (template_service.py lines 88-153):
    build `template_vars` and hand it to Jinja; any exception (template lookup
    or rendering) is wrapped as
    `TemplateError(f"Error rendering template {template_name}: {str(e)}")`. -/
def render_template (o : Oracle) (template_name : String) (content : CMap) :
    Except EmailError String :=
  match o.jinjaRender template_name (template_vars o.year content) with
  | .ok html => .ok html
  | .error e =>
      .error (.templateError ("Error rendering template " ++ template_name ++ ": " ++ e))

end TemplateService

/-- The tail of `GeminiHtmlCompiler.compile_html` after the image merge
    (html_compiler.py lines 50-67): render, the `if not html` emptiness check,
    and the `<`/`>` bounds check, with the `update_status` emissions of the stage
    from the "Processing template" step on. -/
def compileRender (o : Oracle) (template : String) (content_with_images : CMap) :
    Except EmailError String × List StatusEvent :=
  let ev2 : StatusEvent := ("Processing template", 6)
  match TemplateService.render_template o template content_with_images with
  | .error e =>
      (.error (.emailCompilationError ("Email compilation failed: " ++ e.toStr)),
       [ev2, ("Error: " ++ e.toStr, 10)])
  | .ok html =>
    if html = "" then
      (.error (.emailCompilationError "Email compilation failed: Failed to generate HTML"),
       [ev2, ("Error: Failed to generate HTML", 10)])
    else
      let ev3 : StatusEvent := ("Compiling final email", 9)
      if !(pyStartsWith (pyStrip html) "<") || !(pyEndsWith (pyStrip html) ">") then
        (.error (.emailCompilationError "Email compilation failed: Generated HTML appears to be invalid"),
         [ev2, ev3, ("Error: Generated HTML appears to be invalid", 10)])
      else
        (.ok html, [ev2, ev3, ("Email ready", 10)])

/-- `GeminiHtmlCompiler.compile_html` (html_compiler.py lines 30-71): generate
    the four compile-stage images, merge them over the incoming content map,
    then render and validate.  Any exception is re-raised as
    `EmailCompilationError(f"Email compilation failed: {str(e)}")` after
    emitting `("Error: " ++ str(e), 10)`. -/
def compile_html (o : Oracle) (template : String) (content : CMap) :
    Except EmailError String × List StatusEvent :=
  let ev1 : StatusEvent := ("Generating images", 3)
  match generate_email_images o.compileImage content with
  | .error e =>
      (.error (.emailCompilationError ("Email compilation failed: " ++ e.toStr)),
       [ev1, ("Error: " ++ e.toStr, 10)])
  | .ok images =>
      let out := compileRender o template (dictMerge content images)
      (out.1, ev1 :: out.2)

/-! ## Orchestrator (src/utils/orchestration/orchestrator.py) -/

/-- A value held in the per-assistant session-state dict (`st.session_state`,
    reached through `Assistant.get_state`): the `campaign_details` sub-dict
    holds the template name, the content map and the final HTML. -/
inductive StateValue
  | str (s : String)
  | cmap (m : CMap)
  | dict (entries : List (String × StateValue))

/-- The per-assistant session-state dict. -/
abbrev AssistantState := List (String × StateValue)

/-- Project a session-state value to a plain string. -/
def StateValue.asStr : StateValue → Option String
  | .str s => some s
  | _ => none

/-- Project a session-state value to a content map. -/
def StateValue.asCMap : StateValue → Option CMap
  | .cmap m => some m
  | _ => none

/-- Project a session-state value to a nested dict. -/
def StateValue.asDict : StateValue → Option (List (String × StateValue))
  | .dict d => some d
  | _ => none

/-- The dict returned by `create_email` on success. -/
structure PipelineResult where
  template : String
  content : CMap
  html : String
deriving DecidableEq, Repr

/-- `EmailOrchestrator._select_template` (orchestrator.py lines 120-137): fetch
    the available templates, fail with
    `EmailCreationError("No templates found in the templates directory")` when
    the listing is empty, else run the selector agent; any exception triggers a
    further `("Error: " ++ str(e), 10)` display update and is re-raised as
    `EmailCreationError(f"Template selection failed: {str(e)}")`. -/
def orch_select_template (o : Oracle) (campaign_intent : String) :
    Except EmailError String × List StatusEvent :=
  if o.availableTemplates.isEmpty then
    (.error (.emailCreationError "Template selection failed: No templates found in the templates directory"),
     [("Error: No templates found in the templates directory", 10)])
  else
    match select_template o campaign_intent o.availableTemplates with
    | (.ok t, evs) => (.ok t, evs)
    | (.error e, evs) =>
        (.error (.emailCreationError ("Template selection failed: " ++ e.toStr)),
         evs ++ [("Error: " ++ e.toStr, 10)])

/-- `EmailOrchestrator._generate_content` (orchestrator.py lines 139-148). -/
def orch_generate_content (o : Oracle) (contact : CMap) (campaign_purpose : String) :
    Except EmailError CMap × List StatusEvent :=
  match generate_content o contact campaign_purpose with
  | (.ok c, evs) => (.ok c, evs)
  | (.error e, evs) =>
      (.error (.emailCreationError ("Content generation failed: " ++ e.toStr)),
       evs ++ [("Error: " ++ e.toStr, 10)])

/-- `EmailOrchestrator._compile_html` (orchestrator.py lines 150-159). -/
def orch_compile_html (o : Oracle) (template : String) (content : CMap) :
    Except EmailError String × List StatusEvent :=
  match compile_html o template content with
  | (.ok h, evs) => (.ok h, evs)
  | (.error e, evs) =>
      (.error (.emailCreationError ("HTML compilation failed: " ++ e.toStr)),
       evs ++ [("Error: " ++ e.toStr, 10)])

/-- Everything observable about one `create_email` call: its return value or
    exception, the session state of the assistant afterwards, and the per-stage
    status emissions routed through `_update_status_display`. -/
structure RunOutcome where
  result : Except EmailError PipelineResult
  finalState : AssistantState
  templateEvents : List StatusEvent
  contentEvents : List StatusEvent
  compilationEvents : List StatusEvent

/-- `EmailOrchestrator.create_email` (orchestrator.py lines 58-118), with the
    session state of the assistant passed explicitly.

    `campaign_details = state.get("campaign_details", {})` aliases the dict
    held in the session state when that key is present (so the in-place
    `campaign_details.update(...)` after the join is visible in the session
    state even if compilation later fails), and is a fresh dict otherwise;
    a present non-dict value would make `.update` raise `AttributeError`.
    `asyncio.gather` surfaces whichever parallel task failed first in time;
    when both fail the embedding reports the error of the template task (one of the
    behaviours the event loop permits).  Both tasks always run to completion
    (`gather` cancels nothing), so both event streams are produced either
    way. -/
def create_email (o : Oracle) (campaign_intent : String) (contact : CMap)
    (state : AssistantState) : RunOutcome :=
  match orch_select_template o campaign_intent,
        orch_generate_content o contact campaign_intent with
  | (.error e, tEvs), (_, cEvs) =>
      -- gather re-raises the exception of the failed task; nothing was stored yet
      ⟨.error e, state, tEvs, cEvs, []⟩
  | (.ok _, tEvs), (.error e, cEvs) =>
      ⟨.error e, state, tEvs, cEvs, []⟩
  | (.ok template, tEvs), (.ok content, cEvs) =>
      match alookup "campaign_details" state with
      | some (.str _) | some (.cmap _) =>
          -- campaign_details is not a dict: `campaign_details.update(...)`
          -- raises AttributeError before compilation starts
          ⟨.error (.attributeError "update"), state, tEvs, cEvs, []⟩
      | none =>
          -- key absent: `state.get` returned a fresh dict, whose in-place
          -- updates stay invisible until `update_state` inserts it
          let cd1 : List (String × StateValue) :=
            dictMerge [] [("template", .str template), ("content", .cmap content)]
          match orch_compile_html o template content with
          | (.error e, hEvs) =>
              ⟨.error e, state, tEvs, cEvs, hEvs⟩
          | (.ok html, hEvs) =>
              ⟨.ok ⟨template, content, html⟩,
               setKey "campaign_details" (.dict (dictMerge cd1 [("html", .str html)])) state,
               tEvs, cEvs, hEvs⟩
      | some (.dict cd) =>
          -- key present: `campaign_details` aliases the session-held dict, so
          -- the post-join `.update` is already visible in the session state
          let cd1 := dictMerge cd [("template", .str template), ("content", .cmap content)]
          let state1 := setKey "campaign_details" (.dict cd1) state
          match orch_compile_html o template content with
          | (.error e, hEvs) =>
              ⟨.error e, state1, tEvs, cEvs, hEvs⟩
          | (.ok html, hEvs) =>
              ⟨.ok ⟨template, content, html⟩,
               setKey "campaign_details" (.dict (dictMerge cd1 [("html", .str html)])) state1,
               tEvs, cEvs, hEvs⟩

/-! ## Auxiliary notions for the claims -/

/-- The post-render validation of `compile_html`, as one predicate: rendered
    output is rejected when it is empty or when its stripped text does not
    begin with `<` or does not end with `>`. -/
def renderRejected (html : String) : Bool :=
  (html == "") || !(pyStartsWith (pyStrip html) "<") || !(pyEndsWith (pyStrip html) ">")

/-- The three pipeline stages. -/
inductive Stage
  | template
  | content
  | compilation
deriving DecidableEq, Repr

/-- The message prefix with which `EmailOrchestrator` re-raises a failure of
    each stage (orchestrator.py lines 137, 148, 159). -/
def stageLabel : Stage → String
  | .template => "Template selection failed: "
  | .content => "Content generation failed: "
  | .compilation => "HTML compilation failed: "

/-- Which stage of a `create_email` run failed. -/
def stageFailed (o : Oracle) (campaign_intent : String) (contact : CMap) : Stage → Prop
  | .template => exceptOk (orch_select_template o campaign_intent).1 = false
  | .content => exceptOk (orch_generate_content o contact campaign_intent).1 = false
  | .compilation =>
      ∃ t c, (orch_select_template o campaign_intent).1 = .ok t ∧
        (orch_generate_content o contact campaign_intent).1 = .ok c ∧
        exceptOk (orch_compile_html o t c).1 = false

/-- The session state holds either no `campaign_details` entry or a dict one
    (anything else would make `campaign_details.update` raise
    `AttributeError`). -/
def stateWF (st : AssistantState) : Bool :=
  match alookup "campaign_details" st with
  | none => true
  | some (.dict _) => true
  | some _ => false

/-- The progress components of an event list. -/
def progressList (evs : List StatusEvent) : List Nat :=
  evs.map Prod.snd

/-- Is a progress sequence monotonically non-decreasing? -/
def nonDecreasing : List Nat → Bool
  | [] => true
  | [_] => true
  | a :: b :: r => (a ≤ b : Bool) && nonDecreasing (b :: r)

/-- How many emissions in a progress sequence carry the terminal value 1.0. -/
def countDone (ps : List Nat) : Nat :=
  (ps.filter (fun q => q == progressDone)).length

/-- The per-stage progress discipline `create_email` actually satisfies (the
    amended form of the claimed one): non-decreasing progress ending at 1.0,
    with 1.0 emitted once or twice (twice only on failure, where both the
    failing agent and the orchestrator emit a terminal error update), and
    exactly once when the stage succeeds.  An empty list is the trace of a
    stage that was never started. -/
def progressContract (ps : List Nat) (succeeded : Bool) : Prop :=
  nonDecreasing ps = true ∧
  (ps = [] ∨ ps.getLast? = some progressDone) ∧
  countDone ps ≤ 2 ∧
  (ps ≠ [] → 1 ≤ countDone ps) ∧
  (succeeded = true → countDone ps = 1)

instance (ps : List Nat) (b : Bool) : Decidable (progressContract ps b) := by
  unfold progressContract
  infer_instance

/-- The keyword pass exactly as claim C4 words it: the first table entry whose
    keyword occurs case-insensitively in the campaign intent and whose mapped
    template is among the candidates.  (Stated with `filter`/`head?`; written
    from the claim, for comparison with the code-derived `keywordLookup`.) -/
def claimKeyword (campaign_intent : String) (templates : List String) : Option String :=
  ((template_mapping.filter
      (fun p => pyIn (pyLower p.1) (pyLower campaign_intent) && templates.contains p.2)).head?).map
    (fun p => p.2)

/-- Step (3) of the cascade as claim C4 words it: the first candidate for
    which the returned identifier is a case-insensitive substring of the
    candidate name, **or vice versa**.  Written from the claim. -/
def claimFuzzyBoth (identifier : String) (templates : List String) : Option String :=
  (templates.filter
      (fun t => pyIn (pyLower identifier) (pyLower t) || pyIn (pyLower t) (pyLower identifier))).head?

/-- The full resolution cascade exactly as claim C4 states it (first match
    wins; step 3 checks containment in both directions).  Written from the
    claim, to be compared against the code-derived behaviour. -/
def claimCascade (identifier campaign_intent : String) (templates : List String) :
    Option String :=
  if templates.contains identifier then some identifier
  else
    match claimKeyword campaign_intent templates with
    | some m => some m
    | none =>
      match claimFuzzyBoth identifier templates with
      | some t => some t
      | none => templates.head?

/-- Step (3) amended to what the code checks: only
    `identifier is a case-insensitive substring of the candidate`. -/
def amendedFuzzy (identifier : String) (templates : List String) : Option String :=
  (templates.filter (fun t => pyIn (pyLower identifier) (pyLower t))).head?

/-- The cascade of the amended claim C4: as `claimCascade` but with the
    one-directional step 3. -/
def amendedCascade (identifier campaign_intent : String) (templates : List String) :
    Option String :=
  if templates.contains identifier then some identifier
  else
    match claimKeyword campaign_intent templates with
    | some m => some m
    | none =>
      match amendedFuzzy identifier templates with
      | some t => some t
      | none => templates.head?

/-! ## Concrete instances used by witnesses and counterexamples -/

/-- An inert oracle: every capability fails; concrete instances override the
    fields a scenario needs. -/
def oracleStub : Oracle where
  availableTemplates := []
  chooseTemplateResponse := .error "stub"
  contentResponse := .error "stub"
  parseJson := fun _ => .error "stub"
  contentImage := fun _ => .error "stub"
  compileImage := fun _ => .error "stub"
  jinjaRender := fun _ _ => .error "stub"
  year := 2025

/-- A parsed model record carrying all 14 required text fields. -/
def fullRecord : CMap :=
  [("subject", "S"), ("preheader", "P"), ("headline", "H"),
   ("subheadline", "SH"), ("welcome_message", "W"), ("company_name", "C"),
   ("feature1_title", "F1T"), ("feature1_text", "F1X"),
   ("feature2_title", "F2T"), ("feature2_text", "F2X"),
   ("highlight_title", "HT"), ("highlight_text", "HX"),
   ("cta_headline", "CH"), ("cta_text", "CT")]

/-- A parsed model record missing `cta_text`. -/
def missingKeyRecord : CMap :=
  [("subject", "S"), ("preheader", "P"), ("headline", "H"),
   ("subheadline", "SH"), ("welcome_message", "W"), ("company_name", "C"),
   ("feature1_title", "F1T"), ("feature1_text", "F1X"),
   ("feature2_title", "F2T"), ("feature2_text", "F2X"),
   ("highlight_title", "HT"), ("highlight_text", "HX"),
   ("cta_headline", "CH")]

/-- An oracle under which every stage succeeds: one template on disk, the
    chooser names it exactly, the model returns `"RAW"` which parses to
    `fullRecord`, image generation fails (degrading to placeholders) and Jinja
    renders a well-formed snippet. -/
def happyOracle : Oracle :=
  { oracleStub with
    availableTemplates := ["welcome/welcome_email.html"]
    chooseTemplateResponse := .ok "welcome/welcome_email.html"
    contentResponse := .ok "RAW"
    parseJson := fun s => if s = "RAW" then .ok fullRecord else .error "invalid JSON"
    jinjaRender := fun _ _ => .ok "<p>ok</p>" }

/-- Scenario B of the spec: the template chooser succeeds but the content
    model call raises a network error. -/
def contentDownOracle : Oracle :=
  { happyOracle with contentResponse := .error "network down" }

/-- An oracle whose chooser raises, for the failing-template-stage scenarios. -/
def chooserDownOracle : Oracle :=
  { happyOracle with chooseTemplateResponse := .error "network down" }

/-- An oracle whose model response parses to a record missing a required key. -/
def missingKeyOracle : Oracle :=
  { happyOracle with
    parseJson := fun s => if s = "RAW" then .ok missingKeyRecord else .error "invalid JSON" }

/-- Chooser output for the C4 counterexample: `"abc"` is a substring of
    `"zabcz"` but not the other way round, and `"x"` matches no keyword. -/
def reverseFuzzyOracle : Oracle :=
  { oracleStub with chooseTemplateResponse := .ok "zabcz" }

/-- A content map that already carries image references (as the Content
    Generator would hand over), to exhibit the compiler overriding them. -/
def staleImagesContent : CMap :=
  dictMerge fullRecord
    [("HERO_IMAGE", "STALE_HERO"), ("FEATURE1_IMAGE", "STALE_F1"),
     ("FEATURE2_IMAGE", "STALE_F2"), ("HIGHLIGHT_IMAGE", "STALE_HL")]

/-! ## Toolkit lemmas about the dict model -/

theorem alookup_append_of_some {α : Type} {k : String} {a : List (String × α)} {v : α}
    (b : List (String × α)) (h : alookup k a = some v) :
    alookup k (a ++ b) = some v := by
  induction a with
  | nil => simp [alookup] at h
  | cons p rest ih =>
    obtain ⟨k', v'⟩ := p
    by_cases hk : k' = k
    · simp [alookup, hk] at h ⊢
      exact h
    · simp [alookup, hk] at h ⊢
      exact ih h

theorem alookup_append_of_none {α : Type} {k : String} {a : List (String × α)}
    (b : List (String × α)) (h : alookup k a = none) :
    alookup k (a ++ b) = alookup k b := by
  induction a with
  | nil => simp
  | cons p rest ih =>
    obtain ⟨k', v'⟩ := p
    by_cases hk : k' = k
    · simp [alookup, hk] at h
    · simp [alookup, hk] at h ⊢
      exact ih h

theorem containsKey_append {α : Type} (k : String) (a b : List (String × α)) :
    containsKey k (a ++ b) = (containsKey k a || containsKey k b) := by
  unfold containsKey
  cases h : alookup k a with
  | some v =>
    rw [alookup_append_of_some b h]
    simp
  | none =>
    rw [alookup_append_of_none b h]
    simp

theorem containsKey_dictMerge {α : Type} (k : String) (a b : List (String × α)) :
    containsKey k (dictMerge a b) = (containsKey k b || containsKey k a) := by
  unfold dictMerge
  exact containsKey_append k b a

theorem alookup_eq_none_of_containsKey_false {α : Type} {k : String}
    {m : List (String × α)} (h : containsKey k m = false) : alookup k m = none := by
  unfold containsKey at h
  cases hm : alookup k m with
  | none => rfl
  | some v => rw [hm] at h; simp at h

theorem alookup_map_setKey_self {α : Type} (k : String) (v : α)
    (m : List (String × α)) (hc : containsKey k m = true) :
    alookup k (m.map (fun p => if p.1 = k then (k, v) else p)) = some v := by
  induction m with
  | nil => simp [containsKey, alookup] at hc
  | cons p rest ih =>
    obtain ⟨a, b⟩ := p
    simp only [List.map_cons]
    by_cases ha : a = k
    · subst ha
      rw [if_pos rfl]
      simp [alookup]
    · rw [if_neg ha]
      have hc' : containsKey k rest = true := by
        simpa [containsKey, alookup, ha] using hc
      simp [alookup, ha, ih hc']

theorem alookup_setKey_self {α : Type} (k : String) (v : α) (m : List (String × α)) :
    alookup k (setKey k v m) = some v := by
  unfold setKey
  split_ifs with hc
  · exact alookup_map_setKey_self k v m hc
  · have hnone : alookup k m = none :=
      alookup_eq_none_of_containsKey_false (by simpa using hc)
    rw [alookup_append_of_none _ hnone]
    simp [alookup]

theorem alookup_map_replaceKey {α : Type} {k k' : String} (v : α)
    (m : List (String × α)) (hne : k ≠ k') :
    alookup k (m.map (fun p => if p.1 = k' then (k', v) else p)) = alookup k m := by
  have hk'k : (k' = k) = False := eq_false (fun h => hne h.symm)
  induction m with
  | nil => rfl
  | cons p rest ih =>
    obtain ⟨a, b⟩ := p
    simp only [List.map_cons]
    by_cases ha : a = k'
    · subst ha
      rw [if_pos rfl]
      simp [alookup, hk'k, ih]
    · rw [if_neg ha]
      by_cases hak : a = k
      · simp [alookup, hak]
      · simp [alookup, hak, ih]

theorem alookup_setKey_ne {α : Type} {k k' : String} (v : α) (m : List (String × α))
    (hne : k ≠ k') : alookup k (setKey k' v m) = alookup k m := by
  have hk'k : (k' = k) = False := eq_false (fun h => hne h.symm)
  unfold setKey
  split_ifs with hc
  · exact alookup_map_replaceKey v m hne
  · cases h : alookup k m with
    | some w => exact alookup_append_of_some _ h
    | none =>
      rw [alookup_append_of_none _ h]
      simp [alookup, hk'k]

theorem find?_eq_head?_filter {α : Type} (p : α → Bool) (l : List α) :
    l.find? p = (l.filter p).head? := by
  induction l with
  | nil => rfl
  | cons a t ih =>
    rw [List.find?_cons, List.filter_cons]
    cases h : p a
    · exact ih
    · rfl

theorem alookup_dedupKeysAux {α : Type} (k : String) (seen : List String)
    (m : List (String × α)) (h : seen.contains k = false) :
    alookup k (dedupKeysAux seen m) = alookup k m := by
  induction m generalizing seen with
  | nil => rfl
  | cons p rest ih =>
    obtain ⟨a, b⟩ := p
    unfold dedupKeysAux
    cases hs : seen.contains a
    · rw [if_neg (by simp [hs])]
      by_cases hak : a = k
      · simp [alookup, hak]
      · have hmem : k ∉ seen := by simpa using h
        have h' : (a :: seen).contains k = false := by
          simp [List.contains_cons]
          exact ⟨fun hx => hak hx.symm, hmem⟩
        simp [alookup, hak, ih (a :: seen) h']
    · rw [if_pos rfl]
      have hak : ¬(a = k) := fun hx => by
        rw [hx] at hs
        rw [hs] at h
        exact Bool.true_eq_false.mp h
      simp [alookup, hak, ih seen h]

theorem alookup_dedupKeys {α : Type} (k : String) (m : List (String × α)) :
    alookup k (dedupKeys m) = alookup k m :=
  alookup_dedupKeysAux k [] m rfl

theorem alookup_filter_keyPred {α : Type} (k : String) (pred : String → Bool)
    (h : pred k = true) (m : List (String × α)) :
    alookup k (m.filter (fun p => pred p.1)) = alookup k m := by
  induction m with
  | nil => rfl
  | cons p rest ih =>
    obtain ⟨a, b⟩ := p
    rw [List.filter_cons]
    by_cases hak : a = k
    · subst hak
      rw [if_pos (by simpa using h)]
      simp [alookup]
    · cases hp : pred a
      · rw [if_neg (by simp [hp])]
        simp [alookup, hak, ih]
      · rw [if_pos (by simp [hp])]
        simp [alookup, hak, ih]

theorem alookup_map_toStr (k : String) (m : CMap) :
    alookup k (m.map (fun p => (p.1, TemplateValue.str p.2))) =
      (alookup k m).map TemplateValue.str := by
  induction m with
  | nil => rfl
  | cons p rest ih =>
    obtain ⟨a, b⟩ := p
    by_cases hak : a = k
    · simp [alookup, hak]
    · simp [alookup, hak, ih]

/-- Looking an `_IMAGE` key up in the Jinja variable map recovers the
    (string-wrapped) binding of the content dict it was built from. -/
theorem alookup_template_vars_image {k : String} {content : CMap} {v : String}
    (hk : pyEndsWith k "_IMAGE" = true) (year : Nat)
    (h : alookup k content = some v) :
    alookup k (template_vars year content) = some (.str v) := by
  unfold template_vars imageVars
  have h1 : alookup k ((dedupKeys content).filter (fun p => pyEndsWith p.1 "_IMAGE")) =
      some v := by
    rw [alookup_filter_keyPred k (fun s => pyEndsWith s "_IMAGE") hk, alookup_dedupKeys]
    exact h
  refine alookup_append_of_some _ ?_
  rw [alookup_map_toStr, h1]
  rfl

/-! ## Template selector: claims C3, C4, C8 -/

theorem resolveTemplate_mem (template campaign_intent : String)
    (templates : List String) (hne : templates ≠ []) :
    resolveTemplate template campaign_intent templates ∈ templates := by
  unfold resolveTemplate
  split_ifs with hc
  · exact List.mem_of_elem_eq_true hc
  · cases hk : keywordLookup campaign_intent templates with
    | some m =>
      simp only [hk]
      unfold keywordLookup at hk
      cases hf : template_mapping.find?
          (fun p => pyIn (pyLower p.1) (pyLower campaign_intent) && templates.contains p.2) with
      | none => rw [hf] at hk; simp at hk
      | some pr =>
        rw [hf] at hk
        simp only [Option.map_some'] at hk
        have hp := List.find?_some hf
        rw [Bool.and_eq_true] at hp
        have hm : pr.2 = m := by injection hk
        rw [← hm]
        exact List.mem_of_elem_eq_true hp.2
    | none =>
      simp only [hk]
      cases hfz : fuzzyLookup template templates with
      | some t' =>
        simp only [hfz]
        unfold fuzzyLookup at hfz
        exact List.mem_of_find?_eq_some hfz
      | none =>
        simp only [hfz]
        cases templates with
        | nil => exact absurd rfl hne
        | cons a rest => simp [List.headD]

/-- Claim C3: whenever `select_template` returns without raising and the
    supplied candidate list is nonempty, the returned template is a member of
    that candidate list — the cascading fallback can never produce a value
    outside the supplied set. -/
theorem select_template_mem_candidates (o : Oracle) (campaign_intent : String)
    (templates : List String) (hne : templates ≠ []) (t : String)
    (h : (select_template o campaign_intent templates).1 = .ok t) :
    t ∈ templates := by
  obtain ⟨a, rest, rfl⟩ : ∃ a rest, templates = a :: rest := by
    cases templates with
    | nil => exact absurd rfl hne
    | cons a rest => exact ⟨a, rest, rfl⟩
  unfold select_template at h
  rcases hc : o.chooseTemplateResponse with e | txt
  · have hg : GeminiService.select_template o =
        .error (.aiServiceError "Gemini" ("Template selection failed: " ++ e)) := by
      unfold GeminiService.select_template
      rw [hc]
    simp [hg] at h
  · have hg : GeminiService.select_template o = .ok (pyStrip txt) := by
      unfold GeminiService.select_template
      rw [hc]
    by_cases hz : pyStrip txt = ""
    · simp [hg, hz] at h
    · simp only [List.isEmpty_cons, hg, if_neg hz, Bool.false_eq_true, if_false] at h
      simp only [Except.ok.injEq] at h
      rw [← h]
      exact resolveTemplate_mem (pyStrip txt) campaign_intent (a :: rest) hne

/-- Closed instance for C3: with one candidate on disk and the chooser naming
    it exactly, the selected template is a member of the candidate list. -/
theorem select_template_mem_candidates_witness :
    "welcome/welcome_email.html" ∈ ["welcome/welcome_email.html"] :=
  select_template_mem_candidates happyOracle "hi" ["welcome/welcome_email.html"]
    (by decide) "welcome/welcome_email.html" rfl

theorem keywordLookup_eq_claimKeyword (campaign_intent : String)
    (templates : List String) :
    keywordLookup campaign_intent templates = claimKeyword campaign_intent templates := by
  unfold keywordLookup claimKeyword
  rw [find?_eq_head?_filter]

theorem fuzzyLookup_eq_amendedFuzzy (template : String) (templates : List String) :
    fuzzyLookup template templates = amendedFuzzy template templates := by
  unfold fuzzyLookup amendedFuzzy
  rw [find?_eq_head?_filter]

theorem amendedCascade_eq_resolveTemplate (identifier campaign_intent : String)
    (templates : List String) (hne : templates ≠ []) :
    amendedCascade identifier campaign_intent templates =
      some (resolveTemplate identifier campaign_intent templates) := by
  unfold amendedCascade resolveTemplate
  rw [← keywordLookup_eq_claimKeyword, ← fuzzyLookup_eq_amendedFuzzy]
  split_ifs with hc
  · rfl
  · cases hk : keywordLookup campaign_intent templates with
    | some m => rfl
    | none =>
      cases hf : fuzzyLookup identifier templates with
      | some t' => rfl
      | none =>
        cases templates with
        | nil => exact absurd rfl hne
        | cons a rest => simp [List.headD]

/-- Counterexample to claim C4 as stated: with candidates
    `["first.html", "abc"]`, an intent matching no keyword and the chooser
    returning `"zabcz"`, the claimed cascade (whose step 3 also checks that a
    candidate is a substring of the identifier) picks `"abc"`, but the code
    checks only the identifier-inside-candidate direction, finds nothing, and
    falls through to the first candidate `"first.html"`. -/
theorem select_template_fuzzy_not_bidirectional :
    (select_template reverseFuzzyOracle "x" ["first.html", "abc"]).1 = .ok "first.html"
    ∧ claimCascade "zabcz" "x" ["first.html", "abc"] = some "abc"
    ∧ ("first.html" : String) ≠ "abc" :=
  ⟨rfl, rfl, by decide⟩

/-- Claim C4 (amended): for a nonempty candidate list and a chooser response
    that is nonempty after stripping, `select_template` returns exactly the
    result of the ordered cascade — exact match, then first keyword of the
    fixed table occurring in the intent whose mapped template is a candidate,
    then the first candidate containing the identifier case-insensitively
    (one direction only — the "or vice versa" of the original claim is dropped),
    else the first candidate. -/
theorem select_template_cascade (o : Oracle) (campaign_intent : String)
    (templates : List String) (raw : String) (hne : templates ≠ [])
    (hr : o.chooseTemplateResponse = .ok raw) (hnz : pyStrip raw ≠ "") :
    ∃ t, (select_template o campaign_intent templates).1 = .ok t ∧
      amendedCascade (pyStrip raw) campaign_intent templates = some t := by
  obtain ⟨a, rest, rfl⟩ : ∃ a rest, templates = a :: rest := by
    cases templates with
    | nil => exact absurd rfl hne
    | cons a rest => exact ⟨a, rest, rfl⟩
  have hg : GeminiService.select_template o = .ok (pyStrip raw) := by
    unfold GeminiService.select_template
    rw [hr]
  refine ⟨resolveTemplate (pyStrip raw) campaign_intent (a :: rest), ?_, ?_⟩
  · unfold select_template
    simp only [List.isEmpty_cons, hg, if_neg hnz, Bool.false_eq_true, if_false]
  · exact amendedCascade_eq_resolveTemplate (pyStrip raw) campaign_intent (a :: rest) hne

/-- Closed instance for the amended C4 (spec scenario C): an intent containing
    the keyword "product launch" resolves to the mapped template even though
    the chooser returned an unrelated guess. -/
theorem select_template_cascade_witness :
    ∃ t, (select_template { oracleStub with chooseTemplateResponse := .ok "unrelated" }
        "Our product launch is coming"
        ["welcome/welcome_email.html", "announcements/product_launch.html"]).1 = .ok t ∧
      amendedCascade (pyStrip "unrelated") "Our product launch is coming"
        ["welcome/welcome_email.html", "announcements/product_launch.html"] = some t :=
  select_template_cascade _ "Our product launch is coming"
    ["welcome/welcome_email.html", "announcements/product_launch.html"] "unrelated"
    (by decide) rfl (by decide)

/-- Counterexample to claim C8 as stated: invoked with an empty candidate
    list, `select_template` does not fail — it falls back to the template
    directory listing of the template service and succeeds whenever that is nonempty. -/
theorem select_template_empty_candidates_succeeds :
    (select_template { oracleStub with
        availableTemplates := ["welcome/welcome_email.html"],
        chooseTemplateResponse := .ok "welcome/welcome_email.html" } "x" []).1 =
      .ok "welcome/welcome_email.html" :=
  rfl

/-- Claim C8 (amended): with an empty candidate list `select_template` first
    falls back to the listing of the template service; when that is empty too, both
    the agent and the orchestrator wrapper fail with their no-candidates
    errors, and the entire outcome (value and status events) is a constant
    that does not consult the external chooser — the emptiness check precedes
    any chooser invocation. -/
theorem select_template_no_candidates (o : Oracle) (campaign_intent : String)
    (h : o.availableTemplates = []) :
    select_template o campaign_intent [] =
      (.error (.templateSelectionError "Template selection failed: No templates available"),
       [("Analyzing campaign intent", 3), ("Error: No templates available", 10)])
    ∧ orch_select_template o campaign_intent =
      (.error (.emailCreationError
          "Template selection failed: No templates found in the templates directory"),
       [("Error: No templates found in the templates directory", 10)]) := by
  constructor
  · unfold select_template
    simp [h]
  · unfold orch_select_template
    simp [h]

/-- Closed instance for the amended C8: an oracle with no templates on disk
    (and a chooser that would happily answer) still fails both at the agent
    and at the orchestrator level. -/
theorem select_template_no_candidates_witness :
    select_template { oracleStub with chooseTemplateResponse := .ok "zzz" } "x" [] =
      (.error (.templateSelectionError "Template selection failed: No templates available"),
       [("Analyzing campaign intent", 3), ("Error: No templates available", 10)])
    ∧ orch_select_template { oracleStub with chooseTemplateResponse := .ok "zzz" } "x" =
      (.error (.emailCreationError
          "Template selection failed: No templates found in the templates directory"),
       [("Error: No templates found in the templates directory", 10)]) :=
  select_template_no_candidates { oracleStub with chooseTemplateResponse := .ok "zzz" } "x" rfl

/-! ## Content generator: claims C2, C5 -/

theorem containsKey_exists {α : Type} {k : String} {m : List (String × α)}
    (h : containsKey k m = true) : ∃ v, alookup k m = some v := by
  unfold containsKey at h
  exact Option.isSome_iff_exists.mp h

theorem isEmpty_false_of_containsKey {α : Type} {k : String} {m : List (String × α)}
    (h : containsKey k m = true) : m.isEmpty = false := by
  cases m with
  | nil => simp [containsKey, alookup] at h
  | cons p rest => rfl

theorem generate_email_content_ok_required (o : Oracle) (content : CMap)
    (hg : GeminiService.generate_email_content o = .ok content) :
    requiredKeys.all (fun k => containsKey k content) = true := by
  unfold GeminiService.generate_email_content at hg
  rcases hr : o.contentResponse with e | raw
  · simp [hr] at hg
  · rcases hc : cleanResponseText raw with e | text
    · simp [hr, hc] at hg
    · rcases hp : o.parseJson text with e | record
      · simp [hr, hc, hp] at hg
      · by_cases hall : requiredKeys.all (fun k => containsKey k record) = true
        · simp only [hr, hc, hp] at hg
          rw [if_pos hall] at hg
          obtain rfl : record = content := by
            injection hg
          exact hall
        · simp only [hr, hc, hp] at hg
          rw [if_neg hall] at hg
          simp at hg

theorem generate_email_images_ok (img : String → Except String String) (content : CMap)
    (company welcome f1t f1x f2t f2x ht hx : String)
    (h1 : alookup "company_name" content = some company)
    (h2 : alookup "welcome_message" content = some welcome)
    (h3 : alookup "feature1_title" content = some f1t)
    (h4 : alookup "feature1_text" content = some f1x)
    (h5 : alookup "feature2_title" content = some f2t)
    (h6 : alookup "feature2_text" content = some f2x)
    (h7 : alookup "highlight_title" content = some ht)
    (h8 : alookup "highlight_text" content = some hx) :
    generate_email_images img content = .ok
      [("HERO_IMAGE", GeminiService.generate_image img (hero_prompt company welcome)),
       ("FEATURE1_IMAGE", GeminiService.generate_image img (feature1_prompt f1t f1x)),
       ("FEATURE2_IMAGE", GeminiService.generate_image img (feature2_prompt f2t f2x)),
       ("HIGHLIGHT_IMAGE", GeminiService.generate_image img (highlight_prompt ht hx))] := by
  unfold generate_email_images getItem
  simp only [h1, h2, h3, h4, h5, h6, h7, h8]

theorem generate_image_of_error (img : String → Except String String) (p : String)
    (h : exceptOk (img p) = false) :
    GeminiService.generate_image img p = "https://via.placeholder.com/500x300" := by
  unfold GeminiService.generate_image
  cases hi : img p with
  | error e => rfl
  | ok v =>
    rw [hi] at h
    simp [exceptOk] at h

/-- The successful outcome of `generate_content` under an oracle whose text
    stage yielded `content` with all required fields: the returned map is the
    text record merged with the four stage-generated images. -/
theorem generate_content_ok_shape (o : Oracle) (contact : CMap) (purpose : String)
    (content : CMap) (company welcome f1t f1x f2t f2x ht hx : String)
    (hg : GeminiService.generate_email_content o = .ok content)
    (h1 : alookup "company_name" content = some company)
    (h2 : alookup "welcome_message" content = some welcome)
    (h3 : alookup "feature1_title" content = some f1t)
    (h4 : alookup "feature1_text" content = some f1x)
    (h5 : alookup "feature2_title" content = some f2t)
    (h6 : alookup "feature2_text" content = some f2x)
    (h7 : alookup "highlight_title" content = some ht)
    (h8 : alookup "highlight_text" content = some hx) :
    (generate_content o contact purpose).1 = .ok (dictMerge content
      [("HERO_IMAGE", GeminiService.generate_image o.contentImage (hero_prompt company welcome)),
       ("FEATURE1_IMAGE", GeminiService.generate_image o.contentImage (feature1_prompt f1t f1x)),
       ("FEATURE2_IMAGE", GeminiService.generate_image o.contentImage (feature2_prompt f2t f2x)),
       ("HIGHLIGHT_IMAGE", GeminiService.generate_image o.contentImage (highlight_prompt ht hx))]) := by
  have hall := generate_email_content_ok_required o content hg
  have hne : content.isEmpty = false :=
    isEmpty_false_of_containsKey
      (List.all_eq_true.mp hall "company_name" (by decide))
  have hmiss : (requiredKeys.filter (fun k => !containsKey k content)) = [] := by
    rw [List.filter_eq_nil_iff]
    intro k hk
    simp [List.all_eq_true.mp hall k hk]
  unfold generate_content
  simp only [hg, hne, Bool.false_eq_true, if_false, hmiss, List.isEmpty_nil,
    Bool.not_true,
    generate_email_images_ok o.contentImage content company welcome f1t f1x f2t f2x ht hx
      h1 h2 h3 h4 h5 h6 h7 h8]

/-- Claim C2: a `generate_content` value that is returned without raising
    carries all 14 required text keys and all 4 image keys; and if the parsed
    record of the external text capability misses any required key, the stage
    fails with a `ContentGenerationError` and never returns a partial map. -/
theorem generate_content_required_keys (o : Oracle) (contact : CMap) (purpose : String) :
    (∀ m, (generate_content o contact purpose).1 = .ok m →
        (requiredKeys ++ imageKeys).all (fun k => containsKey k m) = true)
    ∧ (∀ raw text record, o.contentResponse = .ok raw →
        cleanResponseText raw = .ok text →
        o.parseJson text = .ok record →
        requiredKeys.all (fun k => containsKey k record) = false →
        ∃ msg, (generate_content o contact purpose).1 =
          .error (.contentGenerationError msg)) := by
  constructor
  · intro m h
    rcases hg : GeminiService.generate_email_content o with e | content
    · have hfalse : exceptOk (generate_content o contact purpose).1 = false := by
        unfold generate_content
        simp [hg, exceptOk]
      rw [h] at hfalse
      simp [exceptOk] at hfalse
    · have hall := generate_email_content_ok_required o content hg
      obtain ⟨company, h1⟩ := containsKey_exists
        (List.all_eq_true.mp hall "company_name" (by decide))
      obtain ⟨welcome, h2⟩ := containsKey_exists
        (List.all_eq_true.mp hall "welcome_message" (by decide))
      obtain ⟨f1t, h3⟩ := containsKey_exists
        (List.all_eq_true.mp hall "feature1_title" (by decide))
      obtain ⟨f1x, h4⟩ := containsKey_exists
        (List.all_eq_true.mp hall "feature1_text" (by decide))
      obtain ⟨f2t, h5⟩ := containsKey_exists
        (List.all_eq_true.mp hall "feature2_title" (by decide))
      obtain ⟨f2x, h6⟩ := containsKey_exists
        (List.all_eq_true.mp hall "feature2_text" (by decide))
      obtain ⟨ht, h7⟩ := containsKey_exists
        (List.all_eq_true.mp hall "highlight_title" (by decide))
      obtain ⟨hx, h8⟩ := containsKey_exists
        (List.all_eq_true.mp hall "highlight_text" (by decide))
      have hshape := generate_content_ok_shape o contact purpose content
        company welcome f1t f1x f2t f2x ht hx hg h1 h2 h3 h4 h5 h6 h7 h8
      rw [hshape] at h
      obtain rfl : dictMerge content _ = m := by injection h
      rw [List.all_append, Bool.and_eq_true]
      constructor
      · rw [List.all_eq_true]
        intro k hk
        rw [containsKey_dictMerge, Bool.or_eq_true]
        exact Or.inr (List.all_eq_true.mp hall k hk)
      · rw [List.all_eq_true]
        intro k hk
        fin_cases hk
        · rw [containsKey_dictMerge, Bool.or_eq_true]; exact Or.inl rfl
        · rw [containsKey_dictMerge, Bool.or_eq_true]; exact Or.inl rfl
        · rw [containsKey_dictMerge, Bool.or_eq_true]; exact Or.inl rfl
        · rw [containsKey_dictMerge, Bool.or_eq_true]; exact Or.inl rfl
  · intro raw text record hraw hclean hparse hmissing
    have hg : GeminiService.generate_email_content o = .error (.contentGenerationError
        ("Error parsing Gemini response: Missing required content fields: " ++
          String.intercalate ", "
            (requiredKeys.filter (fun k => !containsKey k record)) ++
          ". Raw response: " ++ raw)) := by
      unfold GeminiService.generate_email_content
      simp only [hraw, hclean, hparse]
      rw [if_neg (by simp [hmissing])]
    refine ⟨"Content generation failed: " ++
      ("Error parsing Gemini response: Missing required content fields: " ++
        String.intercalate ", "
          (requiredKeys.filter (fun k => !containsKey k record)) ++
        ". Raw response: " ++ raw), ?_⟩
    unfold generate_content
    simp only [hg]
    rfl

/-- Closed instance for C2: a fully-populated parse yields a map with all 18
    keys, and a parse missing `cta_text` makes the stage fail with a
    `ContentGenerationError`. -/
theorem generate_content_required_keys_witness :
    ((requiredKeys ++ imageKeys).all
        (fun k => containsKey k ((generate_content happyOracle [] "p").1.toOption.getD [])) = true)
    ∧ (∃ msg, (generate_content missingKeyOracle [] "p").1 =
        .error (.contentGenerationError msg)) :=
  ⟨(generate_content_required_keys happyOracle [] "p").1 _ rfl,
   (generate_content_required_keys missingKeyOracle [] "p").2 "RAW" "RAW" missingKeyRecord
     rfl rfl rfl rfl⟩

/-- Claim C5: when the text stage has produced a full record, the content
    stage succeeds for every behaviour of the image capability, and any image
    call that fails internally leaves the fixed placeholder reference under
    its image key — image failures are absorbed, never re-raised. -/
theorem generate_content_image_placeholder (o : Oracle) (contact : CMap)
    (purpose : String) (content : CMap)
    (company welcome f1t f1x f2t f2x ht hx : String)
    (hg : GeminiService.generate_email_content o = .ok content)
    (h1 : alookup "company_name" content = some company)
    (h2 : alookup "welcome_message" content = some welcome)
    (h3 : alookup "feature1_title" content = some f1t)
    (h4 : alookup "feature1_text" content = some f1x)
    (h5 : alookup "feature2_title" content = some f2t)
    (h6 : alookup "feature2_text" content = some f2x)
    (h7 : alookup "highlight_title" content = some ht)
    (h8 : alookup "highlight_text" content = some hx) :
    ∃ m, (generate_content o contact purpose).1 = .ok m ∧
      (exceptOk (o.contentImage (hero_prompt company welcome)) = false →
        alookup "HERO_IMAGE" m = some "https://via.placeholder.com/500x300") ∧
      (exceptOk (o.contentImage (feature1_prompt f1t f1x)) = false →
        alookup "FEATURE1_IMAGE" m = some "https://via.placeholder.com/500x300") ∧
      (exceptOk (o.contentImage (feature2_prompt f2t f2x)) = false →
        alookup "FEATURE2_IMAGE" m = some "https://via.placeholder.com/500x300") ∧
      (exceptOk (o.contentImage (highlight_prompt ht hx)) = false →
        alookup "HIGHLIGHT_IMAGE" m = some "https://via.placeholder.com/500x300") := by
  refine ⟨_, generate_content_ok_shape o contact purpose content
    company welcome f1t f1x f2t f2x ht hx hg h1 h2 h3 h4 h5 h6 h7 h8,
    ?_, ?_, ?_, ?_⟩
  · intro hfail
    unfold dictMerge
    refine alookup_append_of_some _ ?_
    simp [alookup, generate_image_of_error o.contentImage _ hfail]
  · intro hfail
    unfold dictMerge
    refine alookup_append_of_some _ ?_
    simp [alookup, generate_image_of_error o.contentImage _ hfail]
  · intro hfail
    unfold dictMerge
    refine alookup_append_of_some _ ?_
    simp [alookup, generate_image_of_error o.contentImage _ hfail]
  · intro hfail
    unfold dictMerge
    refine alookup_append_of_some _ ?_
    simp [alookup, generate_image_of_error o.contentImage _ hfail]

/-- Closed instance for C5 (`happyOracle` fails every image call): the stage
    still succeeds and all four keys hold the placeholder. -/
theorem generate_content_image_placeholder_witness :
    ∃ m, (generate_content happyOracle [] "p").1 = .ok m ∧
      (exceptOk (happyOracle.contentImage (hero_prompt "C" "W")) = false →
        alookup "HERO_IMAGE" m = some "https://via.placeholder.com/500x300") ∧
      (exceptOk (happyOracle.contentImage (feature1_prompt "F1T" "F1X")) = false →
        alookup "FEATURE1_IMAGE" m = some "https://via.placeholder.com/500x300") ∧
      (exceptOk (happyOracle.contentImage (feature2_prompt "F2T" "F2X")) = false →
        alookup "FEATURE2_IMAGE" m = some "https://via.placeholder.com/500x300") ∧
      (exceptOk (happyOracle.contentImage (highlight_prompt "HT" "HX")) = false →
        alookup "HIGHLIGHT_IMAGE" m = some "https://via.placeholder.com/500x300") :=
  generate_content_image_placeholder happyOracle [] "p" fullRecord
    "C" "W" "F1T" "F1X" "F2T" "F2X" "HT" "HX" rfl rfl rfl rfl rfl rfl rfl rfl rfl

/-! ## Compiler: claims C6, C10 -/

theorem compileRender_of_render_error (o : Oracle) (template : String) (cwi : CMap)
    (e : String) (hr : o.jinjaRender template (template_vars o.year cwi) = .error e) :
    (compileRender o template cwi).1 =
      .error (.emailCompilationError ("Email compilation failed: Error rendering template " ++
        template ++ ": " ++ e)) := by
  have hr' : TemplateService.render_template o template cwi =
      .error (.templateError ("Error rendering template " ++ template ++ ": " ++ e)) := by
    unfold TemplateService.render_template
    rw [hr]
  unfold compileRender
  simp only [hr']
  rfl

theorem compileRender_of_rejected (o : Oracle) (template : String) (cwi : CMap)
    (html : String) (hr : TemplateService.render_template o template cwi = .ok html)
    (hrej : renderRejected html = true) :
    ∃ msg, (compileRender o template cwi).1 = .error (.emailCompilationError msg) := by
  unfold compileRender
  simp only [hr]
  by_cases hz : html = ""
  · rw [if_pos hz]
    exact ⟨_, rfl⟩
  · rw [if_neg hz]
    have hcond : (!(pyStartsWith (pyStrip html) "<") || !(pyEndsWith (pyStrip html) ">")) = true := by
      unfold renderRejected at hrej
      rcases Bool.or_eq_true_iff.mp hrej with h | h
      · rcases Bool.or_eq_true_iff.mp h with h' | h'
        · exact absurd (by simpa using h') hz
        · rw [Bool.or_eq_true_iff]
          exact Or.inl h'
      · rw [Bool.or_eq_true_iff]
        exact Or.inr h
    rw [if_pos hcond]
    exact ⟨_, rfl⟩

theorem compileRender_of_accepted (o : Oracle) (template : String) (cwi : CMap)
    (html : String) (hr : TemplateService.render_template o template cwi = .ok html)
    (hrej : renderRejected html = false) :
    (compileRender o template cwi).1 = .ok html := by
  unfold renderRejected at hrej
  rw [Bool.or_eq_false_iff] at hrej
  obtain ⟨hrej1, hends⟩ := hrej
  rw [Bool.or_eq_false_iff] at hrej1
  obtain ⟨hz, hstarts⟩ := hrej1
  unfold compileRender
  simp only [hr]
  rw [if_neg (by simpa using hz)]
  rw [if_neg (by simp [Bool.not_eq_true] at hstarts hends ⊢; simp [hstarts, hends])]

theorem compile_html_factors (o : Oracle) (template : String) (content : CMap)
    (images : CMap) (himg : generate_email_images o.compileImage content = .ok images) :
    (compile_html o template content).1 =
      (compileRender o template (dictMerge content images)).1 := by
  unfold compile_html
  simp only [himg]

/-- Counterexample to claim C6 as stated: on an empty content map the
    compiler stage fails with a `KeyError` while generating its own images —
    before rendering is ever consulted — even though the rendering capability
    would have returned the well-formed, non-empty output `"<html></html>"`.
    So "fails exactly when rendering raises / is empty / is unbounded" is
    false. -/
theorem compile_html_fails_despite_valid_render :
    (compile_html { oracleStub with
        compileImage := fun _ => .ok "B",
        jinjaRender := fun _ _ => .ok "<html></html>" } "welcome/welcome_email.html" []).1 =
      .error (.emailCompilationError "Email compilation failed: company_name")
    ∧ (Oracle.jinjaRender { oracleStub with
        compileImage := fun _ => .ok "B",
        jinjaRender := fun _ _ => .ok "<html></html>" } "welcome/welcome_email.html" [] =
        .ok "<html></html>")
    ∧ renderRejected "<html></html>" = false :=
  ⟨rfl, rfl, rfl⟩

/-- Claim C6 (amended): provided the content map carries the eight text fields
    that the image prompts of the compiler interpolate (otherwise the stage fails
    with a `KeyError` before rendering), `compile_html` fails — always with an
    `EmailCompilationError` — exactly when the rendering capability raises, or
    returns empty output, or returns output whose stripped text is not bounded
    by `<` and `>`; otherwise it returns the rendered HTML unchanged. -/
theorem compile_html_failure_characterization (o : Oracle) (template : String)
    (content : CMap) (company welcome f1t f1x f2t f2x ht hx : String)
    (h1 : alookup "company_name" content = some company)
    (h2 : alookup "welcome_message" content = some welcome)
    (h3 : alookup "feature1_title" content = some f1t)
    (h4 : alookup "feature1_text" content = some f1x)
    (h5 : alookup "feature2_title" content = some f2t)
    (h6 : alookup "feature2_text" content = some f2x)
    (h7 : alookup "highlight_title" content = some ht)
    (h8 : alookup "highlight_text" content = some hx) :
    ∃ images, generate_email_images o.compileImage content = .ok images ∧
      (∀ e, (compile_html o template content).1 = .error e →
        ∃ msg, e = .emailCompilationError msg) ∧
      (∀ html, TemplateService.render_template o template (dictMerge content images) = .ok html →
        renderRejected html = false → (compile_html o template content).1 = .ok html) ∧
      (exceptOk (compile_html o template content).1 = false ↔
        (exceptOk (TemplateService.render_template o template (dictMerge content images)) = false ∨
          ∃ html, TemplateService.render_template o template (dictMerge content images) = .ok html ∧
            renderRejected html = true)) := by
  have himg := generate_email_images_ok o.compileImage content
    company welcome f1t f1x f2t f2x ht hx h1 h2 h3 h4 h5 h6 h7 h8
  refine ⟨_, himg, ?_, ?_, ?_⟩
  · intro e he
    rw [compile_html_factors o template content _ himg] at he
    rcases hr : TemplateService.render_template o template (dictMerge content _) with e' | html
    · unfold TemplateService.render_template at hr
      rcases hj : o.jinjaRender template (template_vars o.year (dictMerge content _)) with e'' | h''
      · rw [compileRender_of_render_error o template _ e'' hj] at he
        have h' : EmailError.emailCompilationError
            ("Email compilation failed: Error rendering template " ++ template ++ ": " ++ e'') =
              e := by injection he
        exact ⟨_, h'.symm⟩
      · rw [hj] at hr
        simp at hr
    · by_cases hrej : renderRejected html = true
      · obtain ⟨msg, hmsg⟩ := compileRender_of_rejected o template _ html hr hrej
        rw [hmsg] at he
        have h' : EmailError.emailCompilationError msg = e := by injection he
        exact ⟨msg, h'.symm⟩
      · have hrej' : renderRejected html = false := by
          cases hb : renderRejected html
          · rfl
          · exact absurd hb hrej
        rw [compileRender_of_accepted o template _ html hr hrej'] at he
        simp at he
  · intro html hr hrej
    rw [compile_html_factors o template content _ himg]
    exact compileRender_of_accepted o template _ html hr hrej
  · rw [compile_html_factors o template content _ himg]
    constructor
    · intro hfail
      rcases hr : TemplateService.render_template o template (dictMerge content _) with e' | html
      · exact Or.inl rfl
      · by_cases hrej : renderRejected html = true
        · exact Or.inr ⟨html, rfl, hrej⟩
        · have hrej' : renderRejected html = false := by
            cases hb : renderRejected html
            · rfl
            · exact absurd hb hrej
          rw [compileRender_of_accepted o template _ html hr hrej'] at hfail
          simp [exceptOk] at hfail
    · intro hcase
      rcases hcase with hfail | ⟨html, hr, hrej⟩
      · rcases hr : TemplateService.render_template o template (dictMerge content _) with e' | html
        · unfold TemplateService.render_template at hr
          rcases hj : o.jinjaRender template (template_vars o.year (dictMerge content _)) with e'' | h''
          · rw [compileRender_of_render_error o template _ e'' hj]
            rfl
          · rw [hj] at hr
            simp at hr
        · rw [hr] at hfail
          simp [exceptOk] at hfail
      · obtain ⟨msg, hmsg⟩ := compileRender_of_rejected o template _ html hr hrej
        rw [hmsg]
        rfl

/-- Closed instance for the amended C6: a full content map with a well-formed
    rendering yields the rendered HTML back. -/
theorem compile_html_failure_characterization_witness :
    ∃ images, generate_email_images
        (Oracle.compileImage { oracleStub with jinjaRender := fun _ _ => .ok "<p>hi</p>" })
        fullRecord = .ok images ∧
      (∀ e, (compile_html { oracleStub with jinjaRender := fun _ _ => .ok "<p>hi</p>" }
          "welcome/welcome_email.html" fullRecord).1 = .error e →
        ∃ msg, e = .emailCompilationError msg) ∧
      (∀ html, TemplateService.render_template
            { oracleStub with jinjaRender := fun _ _ => .ok "<p>hi</p>" }
            "welcome/welcome_email.html" (dictMerge fullRecord images) = .ok html →
        renderRejected html = false →
        (compile_html { oracleStub with jinjaRender := fun _ _ => .ok "<p>hi</p>" }
          "welcome/welcome_email.html" fullRecord).1 = .ok html) ∧
      (exceptOk (compile_html { oracleStub with jinjaRender := fun _ _ => .ok "<p>hi</p>" }
          "welcome/welcome_email.html" fullRecord).1 = false ↔
        (exceptOk (TemplateService.render_template
            { oracleStub with jinjaRender := fun _ _ => .ok "<p>hi</p>" }
            "welcome/welcome_email.html" (dictMerge fullRecord images)) = false ∨
          ∃ html, TemplateService.render_template
              { oracleStub with jinjaRender := fun _ _ => .ok "<p>hi</p>" }
              "welcome/welcome_email.html" (dictMerge fullRecord images) = .ok html ∧
            renderRejected html = true)) :=
  compile_html_failure_characterization
    { oracleStub with jinjaRender := fun _ _ => .ok "<p>hi</p>" }
    "welcome/welcome_email.html" fullRecord
    "C" "W" "F1T" "F1X" "F2T" "F2X" "HT" "HX" rfl rfl rfl rfl rfl rfl rfl rfl

/-- Claim C10: the compiler stage always issues four image-generation calls of
    its own (through its own capability, on prompts built from the incoming
    text fields), and the variable map handed to the rendering capability
    binds the four image keys to those freshly generated references — for
    every input content map, including maps that already carry image values
    from the Content Generator, which are thereby overridden and never
    rendered. -/
theorem compile_html_fresh_images (o : Oracle) (template : String)
    (content : CMap) (company welcome f1t f1x f2t f2x ht hx : String)
    (h1 : alookup "company_name" content = some company)
    (h2 : alookup "welcome_message" content = some welcome)
    (h3 : alookup "feature1_title" content = some f1t)
    (h4 : alookup "feature1_text" content = some f1x)
    (h5 : alookup "feature2_title" content = some f2t)
    (h6 : alookup "feature2_text" content = some f2x)
    (h7 : alookup "highlight_title" content = some ht)
    (h8 : alookup "highlight_text" content = some hx) :
    ∃ images, generate_email_images o.compileImage content = .ok images ∧
      images =
        [("HERO_IMAGE", GeminiService.generate_image o.compileImage (hero_prompt company welcome)),
         ("FEATURE1_IMAGE", GeminiService.generate_image o.compileImage (feature1_prompt f1t f1x)),
         ("FEATURE2_IMAGE", GeminiService.generate_image o.compileImage (feature2_prompt f2t f2x)),
         ("HIGHLIGHT_IMAGE", GeminiService.generate_image o.compileImage (highlight_prompt ht hx))] ∧
      (compile_html o template content).1 =
        (compileRender o template (dictMerge content images)).1 ∧
      alookup "HERO_IMAGE" (template_vars o.year (dictMerge content images)) =
        some (.str (GeminiService.generate_image o.compileImage (hero_prompt company welcome))) ∧
      alookup "FEATURE1_IMAGE" (template_vars o.year (dictMerge content images)) =
        some (.str (GeminiService.generate_image o.compileImage (feature1_prompt f1t f1x))) ∧
      alookup "FEATURE2_IMAGE" (template_vars o.year (dictMerge content images)) =
        some (.str (GeminiService.generate_image o.compileImage (feature2_prompt f2t f2x))) ∧
      alookup "HIGHLIGHT_IMAGE" (template_vars o.year (dictMerge content images)) =
        some (.str (GeminiService.generate_image o.compileImage (highlight_prompt ht hx))) := by
  have himg := generate_email_images_ok o.compileImage content
    company welcome f1t f1x f2t f2x ht hx h1 h2 h3 h4 h5 h6 h7 h8
  refine ⟨_, himg, rfl, compile_html_factors o template content _ himg, ?_, ?_, ?_, ?_⟩
  · exact alookup_template_vars_image (by decide) o.year
      (alookup_append_of_some content rfl)
  · exact alookup_template_vars_image (by decide) o.year
      (alookup_append_of_some content rfl)
  · exact alookup_template_vars_image (by decide) o.year
      (alookup_append_of_some content rfl)
  · exact alookup_template_vars_image (by decide) o.year
      (alookup_append_of_some content rfl)

/-- Closed instance for C10: a content map that already carries stale image
    references still leads to the fresh compiler-stage references (here the
    placeholder, since the stub image capability fails) in the rendering
    variable map. -/
theorem compile_html_fresh_images_witness :
    (∃ images, generate_email_images (Oracle.compileImage oracleStub) staleImagesContent =
        .ok images ∧
      images =
        [("HERO_IMAGE", GeminiService.generate_image (Oracle.compileImage oracleStub)
            (hero_prompt "C" "W")),
         ("FEATURE1_IMAGE", GeminiService.generate_image (Oracle.compileImage oracleStub)
            (feature1_prompt "F1T" "F1X")),
         ("FEATURE2_IMAGE", GeminiService.generate_image (Oracle.compileImage oracleStub)
            (feature2_prompt "F2T" "F2X")),
         ("HIGHLIGHT_IMAGE", GeminiService.generate_image (Oracle.compileImage oracleStub)
            (highlight_prompt "HT" "HX"))] ∧
      (compile_html oracleStub "welcome/welcome_email.html" staleImagesContent).1 =
        (compileRender oracleStub "welcome/welcome_email.html"
          (dictMerge staleImagesContent images)).1 ∧
      alookup "HERO_IMAGE" (template_vars oracleStub.year (dictMerge staleImagesContent images)) =
        some (.str (GeminiService.generate_image (Oracle.compileImage oracleStub)
          (hero_prompt "C" "W"))) ∧
      alookup "FEATURE1_IMAGE" (template_vars oracleStub.year (dictMerge staleImagesContent images)) =
        some (.str (GeminiService.generate_image (Oracle.compileImage oracleStub)
          (feature1_prompt "F1T" "F1X"))) ∧
      alookup "FEATURE2_IMAGE" (template_vars oracleStub.year (dictMerge staleImagesContent images)) =
        some (.str (GeminiService.generate_image (Oracle.compileImage oracleStub)
          (feature2_prompt "F2T" "F2X"))) ∧
      alookup "HIGHLIGHT_IMAGE" (template_vars oracleStub.year (dictMerge staleImagesContent images)) =
        some (.str (GeminiService.generate_image (Oracle.compileImage oracleStub)
          (highlight_prompt "HT" "HX"))))
    ∧ alookup "HERO_IMAGE" staleImagesContent = some "STALE_HERO" :=
  ⟨compile_html_fresh_images oracleStub "welcome/welcome_email.html" staleImagesContent
    "C" "W" "F1T" "F1X" "F2T" "F2X" "HT" "HX" rfl rfl rfl rfl rfl rfl rfl rfl, rfl⟩

/-! ## Orchestrator: claims C1, C9 -/

theorem orch_select_template_error_shape (o : Oracle) (i : String) (e : EmailError)
    (h : (orch_select_template o i).1 = .error e) :
    ∃ d, e = .emailCreationError ("Template selection failed: " ++ d) := by
  unfold orch_select_template at h
  split_ifs at h with hie
  · dsimp only at h
    injection h with h'
    exact ⟨"No templates found in the templates directory", h'.symm⟩
  · rcases hs : select_template o i o.availableTemplates with ⟨r, evs⟩
    rw [hs] at h
    cases r with
    | ok t => simp at h
    | error e' =>
      dsimp only at h
      injection h with h'
      exact ⟨e'.toStr, h'.symm⟩

theorem orch_generate_content_error_shape (o : Oracle) (contact : CMap)
    (purpose : String) (e : EmailError)
    (h : (orch_generate_content o contact purpose).1 = .error e) :
    ∃ d, e = .emailCreationError ("Content generation failed: " ++ d) := by
  unfold orch_generate_content at h
  rcases hs : generate_content o contact purpose with ⟨r, evs⟩
  rw [hs] at h
  cases r with
  | ok c => simp at h
  | error e' =>
    dsimp only at h
    injection h with h'
    exact ⟨e'.toStr, h'.symm⟩

theorem orch_compile_html_error_shape (o : Oracle) (template : String)
    (content : CMap) (e : EmailError)
    (h : (orch_compile_html o template content).1 = .error e) :
    ∃ d, e = .emailCreationError ("HTML compilation failed: " ++ d) := by
  unfold orch_compile_html at h
  rcases hs : compile_html o template content with ⟨r, evs⟩
  rw [hs] at h
  cases r with
  | ok html => simp at h
  | error e' =>
    dsimp only at h
    injection h with h'
    exact ⟨e'.toStr, h'.symm⟩

/-- Claim C1: whenever a stage of `create_email` fails (the session state
    being well-formed), the call fails — never returns a success — with a
    single `EmailCreationError` whose message starts with the prefix of the
    failing stage and carries the underlying detail; in particular a Content
    Generator failure yields an overall failure even though the Template
    Selector task succeeded. -/
theorem create_email_stage_error_isolation (o : Oracle) (campaign_intent : String)
    (contact : CMap) (st : AssistantState) (hWF : stateWF st = true) :
    (∀ e, (create_email o campaign_intent contact st).result = .error e →
        ∃ s d, e = .emailCreationError (stageLabel s ++ d) ∧
          stageFailed o campaign_intent contact s)
    ∧ ((exceptOk (orch_select_template o campaign_intent).1 = false ∨
        exceptOk (orch_generate_content o contact campaign_intent).1 = false) →
        exceptOk (create_email o campaign_intent contact st).result = false) := by
  rcases hT : orch_select_template o campaign_intent with ⟨tr, tevs⟩
  rcases hC : orch_generate_content o contact campaign_intent with ⟨cr, cevs⟩
  cases tr with
  | error e0 =>
    have hres : (create_email o campaign_intent contact st).result = .error e0 := by
      unfold create_email
      simp only [hT, hC]
    constructor
    · intro e he
      rw [hres] at he
      obtain rfl : e0 = e := by injection he
      obtain ⟨d, hd⟩ := orch_select_template_error_shape o campaign_intent e0 (by rw [hT])
      refine ⟨.template, d, hd, ?_⟩
      show exceptOk (orch_select_template o campaign_intent).1 = false
      rw [hT]
      rfl
    · intro _
      rw [hres]
      rfl
  | ok t =>
    cases cr with
    | error e0 =>
      have hres : (create_email o campaign_intent contact st).result = .error e0 := by
        unfold create_email
        simp only [hT, hC]
      constructor
      · intro e he
        rw [hres] at he
        obtain rfl : e0 = e := by injection he
        obtain ⟨d, hd⟩ := orch_generate_content_error_shape o contact campaign_intent e0
          (by rw [hC])
        refine ⟨.content, d, hd, ?_⟩
        show exceptOk (orch_generate_content o contact campaign_intent).1 = false
        rw [hC]
        rfl
      · intro _
        rw [hres]
        rfl
    | ok c =>
      cases hcd : alookup "campaign_details" st with
      | none =>
        rcases hH : orch_compile_html o t c with ⟨hr, hevs⟩
        cases hr with
        | error e0 =>
          have hres : (create_email o campaign_intent contact st).result = .error e0 := by
            unfold create_email
            simp only [hT, hC, hcd, hH]
          refine ⟨?_, fun hd => by rcases hd with hd | hd <;> simp [exceptOk] at hd⟩
          intro e he
          rw [hres] at he
          obtain rfl : e0 = e := by injection he
          obtain ⟨d, hd⟩ := orch_compile_html_error_shape o t c e0 (by rw [hH])
          refine ⟨.compilation, d, hd, t, c, by simp [hT], by simp [hC], ?_⟩
          rw [hH]
          rfl
        | ok html =>
          have hres : (create_email o campaign_intent contact st).result = .ok ⟨t, c, html⟩ := by
            unfold create_email
            simp only [hT, hC, hcd, hH]
          refine ⟨?_, fun hd => by rcases hd with hd | hd <;> simp [exceptOk] at hd⟩
          intro e he
          rw [hres] at he
          simp at he
      | some v =>
        cases v with
        | str s =>
          unfold stateWF at hWF
          rw [hcd] at hWF
          simp at hWF
        | cmap m =>
          unfold stateWF at hWF
          rw [hcd] at hWF
          simp at hWF
        | dict d0 =>
          rcases hH : orch_compile_html o t c with ⟨hr, hevs⟩
          cases hr with
          | error e0 =>
            have hres : (create_email o campaign_intent contact st).result = .error e0 := by
              unfold create_email
              simp only [hT, hC, hcd, hH]
            refine ⟨?_, fun hd => by rcases hd with hd | hd <;> simp [exceptOk] at hd⟩
            intro e he
            rw [hres] at he
            obtain rfl : e0 = e := by injection he
            obtain ⟨d, hd⟩ := orch_compile_html_error_shape o t c e0 (by rw [hH])
            refine ⟨.compilation, d, hd, t, c, by simp [hT], by simp [hC], ?_⟩
            rw [hH]
            rfl
          | ok html =>
            have hres : (create_email o campaign_intent contact st).result =
                .ok ⟨t, c, html⟩ := by
              unfold create_email
              simp only [hT, hC, hcd, hH]
            refine ⟨?_, fun hd => by rcases hd with hd | hd <;> simp [exceptOk] at hd⟩
            intro e he
            rw [hres] at he
            simp at he

/-- Closed instance for C1 (spec scenario B): the template chooser succeeded
    but the content model call raised — `create_email` does not return a
    success value. -/
theorem create_email_stage_error_isolation_witness :
    stateWF ([] : AssistantState) = true ∧
    exceptOk (orch_generate_content contentDownOracle [] "hi").1 = false ∧
    exceptOk (create_email contentDownOracle "hi" [] []).result = false :=
  ⟨rfl, rfl,
   (create_email_stage_error_isolation contentDownOracle "hi" [] [] rfl).2 (Or.inr rfl)⟩

/-- Counterexample to claim C9 as stated: a successful `create_email` run is
    not free of hidden mutation — it stores the selected template, the content
    map and the final HTML into the `campaign_details` session
    state, which here goes from absent to populated. -/
theorem create_email_stores_session_state :
    exceptOk (create_email happyOracle "hi" [] []).result = true
    ∧ (alookup "campaign_details" ([] : AssistantState)).isSome = false
    ∧ (((alookup "campaign_details" (create_email happyOracle "hi" [] []).finalState).bind
        StateValue.asDict).isSome = true)
    ∧ ((((alookup "campaign_details" (create_email happyOracle "hi" [] []).finalState).bind
          StateValue.asDict).getD [] |> alookup "template" |>.bind StateValue.asStr) =
        some "welcome/welcome_email.html")
    ∧ ((((alookup "campaign_details" (create_email happyOracle "hi" [] []).finalState).bind
          StateValue.asDict).getD [] |> alookup "html" |>.bind StateValue.asStr) =
        some "<p>ok</p>") :=
  ⟨rfl, rfl, rfl, rfl, rfl⟩

/-- Claim C9 (amended): apart from the `StatusUpdate` emissions, the only
    state `create_email` touches is the `campaign_details` entry of the
    session dict of the assistant — every other key is left exactly as it was —
    and on success that entry holds precisely the template, content map and
    HTML of the returned `PipelineResult`. -/
theorem create_email_state_frame (o : Oracle) (campaign_intent : String)
    (contact : CMap) (st : AssistantState) :
    (∀ k, k ≠ "campaign_details" →
        alookup k (create_email o campaign_intent contact st).finalState = alookup k st)
    ∧ (∀ r, (create_email o campaign_intent contact st).result = .ok r →
        ∃ d, alookup "campaign_details"
            (create_email o campaign_intent contact st).finalState = some (.dict d) ∧
          alookup "template" d = some (.str r.template) ∧
          alookup "content" d = some (.cmap r.content) ∧
          alookup "html" d = some (.str r.html)) := by
  rcases hT : orch_select_template o campaign_intent with ⟨tr, tevs⟩
  rcases hC : orch_generate_content o contact campaign_intent with ⟨cr, cevs⟩
  cases tr with
  | error e0 =>
    have hrun : create_email o campaign_intent contact st =
        ⟨.error e0, st, tevs, cevs, []⟩ := by
      unfold create_email
      simp only [hT, hC]
    rw [hrun]
    exact ⟨fun k _ => rfl, fun r hr => by simp at hr⟩
  | ok t =>
    cases cr with
    | error e0 =>
      have hrun : create_email o campaign_intent contact st =
          ⟨.error e0, st, tevs, cevs, []⟩ := by
        unfold create_email
        simp only [hT, hC]
      rw [hrun]
      exact ⟨fun k _ => rfl, fun r hr => by simp at hr⟩
    | ok c =>
      cases hcd : alookup "campaign_details" st with
      | none =>
        rcases hH : orch_compile_html o t c with ⟨hr, hevs⟩
        cases hr with
        | error e0 =>
          have hrun : create_email o campaign_intent contact st =
              ⟨.error e0, st, tevs, cevs, hevs⟩ := by
            unfold create_email
            simp only [hT, hC, hcd, hH]
          rw [hrun]
          exact ⟨fun k _ => rfl, fun r hr => by simp at hr⟩
        | ok html =>
          have hrun : create_email o campaign_intent contact st =
              ⟨.ok ⟨t, c, html⟩,
               setKey "campaign_details"
                 (.dict (dictMerge
                   (dictMerge [] [("template", .str t), ("content", .cmap c)])
                   [("html", .str html)])) st,
               tevs, cevs, hevs⟩ := by
            unfold create_email
            simp only [hT, hC, hcd, hH]
          rw [hrun]
          constructor
          · intro k hk
            exact alookup_setKey_ne _ st hk
          · intro r hr
            obtain rfl : PipelineResult.mk t c html = r := by injection hr
            refine ⟨_, alookup_setKey_self "campaign_details" _ st, rfl, rfl, rfl⟩
      | some v =>
        cases v with
        | str s =>
          have hrun : create_email o campaign_intent contact st =
              ⟨.error (.attributeError "update"), st, tevs, cevs, []⟩ := by
            unfold create_email
            simp only [hT, hC, hcd]
          rw [hrun]
          exact ⟨fun k _ => rfl, fun r hr => by simp at hr⟩
        | cmap m =>
          have hrun : create_email o campaign_intent contact st =
              ⟨.error (.attributeError "update"), st, tevs, cevs, []⟩ := by
            unfold create_email
            simp only [hT, hC, hcd]
          rw [hrun]
          exact ⟨fun k _ => rfl, fun r hr => by simp at hr⟩
        | dict d0 =>
          rcases hH : orch_compile_html o t c with ⟨hr, hevs⟩
          cases hr with
          | error e0 =>
            have hrun : create_email o campaign_intent contact st =
                ⟨.error e0,
                 setKey "campaign_details"
                   (.dict (dictMerge d0 [("template", .str t), ("content", .cmap c)])) st,
                 tevs, cevs, hevs⟩ := by
              unfold create_email
              simp only [hT, hC, hcd, hH]
            rw [hrun]
            constructor
            · intro k hk
              exact alookup_setKey_ne _ st hk
            · intro r hr
              simp at hr
          | ok html =>
            have hrun : create_email o campaign_intent contact st =
                ⟨.ok ⟨t, c, html⟩,
                 setKey "campaign_details"
                   (.dict (dictMerge
                     (dictMerge d0 [("template", .str t), ("content", .cmap c)])
                     [("html", .str html)]))
                   (setKey "campaign_details"
                     (.dict (dictMerge d0 [("template", .str t), ("content", .cmap c)])) st),
                 tevs, cevs, hevs⟩ := by
              unfold create_email
              simp only [hT, hC, hcd, hH]
            rw [hrun]
            constructor
            · intro k hk
              rw [alookup_setKey_ne _ _ hk, alookup_setKey_ne _ st hk]
            · intro r hr
              obtain rfl : PipelineResult.mk t c html = r := by injection hr
              refine ⟨_, alookup_setKey_self "campaign_details" _ _, rfl, rfl, rfl⟩

/-- Closed instance for the amended C9: on the successful `happyOracle` run,
    an unrelated session key is untouched and `campaign_details` holds exactly
    the returned artifacts. -/
theorem create_email_state_frame_witness :
    alookup "messages" (create_email happyOracle "hi" [] [("messages", .str "m")]).finalState =
      alookup "messages" [("messages", StateValue.str "m")]
    ∧ ∃ d, alookup "campaign_details"
          (create_email happyOracle "hi" [] [("messages", .str "m")]).finalState =
            some (.dict d) ∧
        alookup "template" d =
          some (.str ((create_email happyOracle "hi" [] [("messages", .str "m")]).result.toOption.getD
            ⟨"", [], ""⟩).template) ∧
        alookup "content" d =
          some (.cmap ((create_email happyOracle "hi" [] [("messages", .str "m")]).result.toOption.getD
            ⟨"", [], ""⟩).content) ∧
        alookup "html" d =
          some (.str ((create_email happyOracle "hi" [] [("messages", .str "m")]).result.toOption.getD
            ⟨"", [], ""⟩).html) :=
  ⟨(create_email_state_frame happyOracle "hi" [] [("messages", .str "m")]).1 "messages"
      (by decide),
   (create_email_state_frame happyOracle "hi" [] [("messages", .str "m")]).2 _ rfl⟩

/-! ## Status reporting: claim C7 -/

theorem select_template_progress_shape (o : Oracle) (i : String) (ts : List String) :
    (exceptOk (select_template o i ts).1 = true ∧
      progressList (select_template o i ts).2 = [3, 6, 10])
    ∨ (exceptOk (select_template o i ts).1 = false ∧
      (progressList (select_template o i ts).2 = [3, 10] ∨
        progressList (select_template o i ts).2 = [3, 6, 10])) := by
  by_cases hie : (if ts = [] then o.availableTemplates else ts) = []
  · refine Or.inr ⟨?_, Or.inl ?_⟩
    · simp [select_template, hie, exceptOk]
    · simp [select_template, hie, progressList]
  · rcases hc : GeminiService.select_template o with e | t
    · refine Or.inr ⟨?_, Or.inr ?_⟩
      · simp [select_template, hie, hc, exceptOk]
      · simp [select_template, hie, hc, progressList]
    · by_cases hz : t = ""
      · refine Or.inr ⟨?_, Or.inr ?_⟩
        · simp [select_template, hie, hc, hz, exceptOk]
        · simp [select_template, hie, hc, hz, progressList]
      · refine Or.inl ⟨?_, ?_⟩
        · simp [select_template, hie, hc, hz, exceptOk]
        · simp [select_template, hie, hc, hz, progressList]

theorem orch_select_template_progress (o : Oracle) (i : String) :
    progressContract (progressList (orch_select_template o i).2)
      (exceptOk (orch_select_template o i).1) := by
  unfold orch_select_template
  split_ifs with h1
  · exact (by decide :
      progressContract (progressList [("Error: No templates found in the templates directory", 10)]) false)
  · rcases hs : select_template o i o.availableTemplates with ⟨r, evs⟩
    have hshape := select_template_progress_shape o i o.availableTemplates
    rw [hs] at hshape
    cases r with
    | ok t =>
      rcases hshape with ⟨_, hevs⟩ | ⟨hbad, _⟩
      · dsimp only at hevs ⊢
        rw [hevs]
        exact (by decide : progressContract [3, 6, 10] true)
      · simp [exceptOk] at hbad
    | error e =>
      have happ : progressList (evs ++ [("Error: " ++ e.toStr, 10)]) =
          progressList evs ++ [10] := by
        simp [progressList]
      rcases hshape with ⟨hok, _⟩ | ⟨_, hevs | hevs⟩
      · simp [exceptOk] at hok
      · dsimp only at hevs ⊢
        rw [happ, hevs]
        exact (by decide : progressContract ([3, 10] ++ [10]) false)
      · dsimp only at hevs ⊢
        rw [happ, hevs]
        exact (by decide : progressContract ([3, 6, 10] ++ [10]) false)

theorem generate_content_progress_shape (o : Oracle) (contact : CMap) (purpose : String) :
    (exceptOk (generate_content o contact purpose).1 = true ∧
      progressList (generate_content o contact purpose).2 = [1, 3, 5, 10])
    ∨ (exceptOk (generate_content o contact purpose).1 = false ∧
      (progressList (generate_content o contact purpose).2 = [1, 3, 10] ∨
        progressList (generate_content o contact purpose).2 = [1, 3, 5, 10])) := by
  unfold generate_content
  rcases hg : GeminiService.generate_email_content o with e | content
  · simp only [hg]
    exact Or.inr ⟨rfl, Or.inl rfl⟩
  · simp only [hg]
    split_ifs with h1 h2
    · exact Or.inr ⟨rfl, Or.inl rfl⟩
    · exact Or.inr ⟨rfl, Or.inl rfl⟩
    · rcases hi : generate_email_images o.contentImage content with e' | imgs
      · simp only [hi]
        exact Or.inr ⟨rfl, Or.inr rfl⟩
      · simp only [hi]
        exact Or.inl ⟨rfl, rfl⟩

theorem orch_generate_content_progress (o : Oracle) (contact : CMap) (purpose : String) :
    progressContract (progressList (orch_generate_content o contact purpose).2)
      (exceptOk (orch_generate_content o contact purpose).1) := by
  unfold orch_generate_content
  rcases hs : generate_content o contact purpose with ⟨r, evs⟩
  have hshape := generate_content_progress_shape o contact purpose
  rw [hs] at hshape
  cases r with
  | ok c =>
    rcases hshape with ⟨_, hevs⟩ | ⟨hbad, _⟩
    · dsimp only at hevs ⊢
      rw [hevs]
      exact (by decide : progressContract [1, 3, 5, 10] true)
    · simp [exceptOk] at hbad
  | error e =>
    have happ : progressList (evs ++ [("Error: " ++ e.toStr, 10)]) =
        progressList evs ++ [10] := by
      simp [progressList]
    rcases hshape with ⟨hok, _⟩ | ⟨_, hevs | hevs⟩
    · simp [exceptOk] at hok
    · dsimp only at hevs ⊢
      rw [happ, hevs]
      exact (by decide : progressContract ([1, 3, 10] ++ [10]) false)
    · dsimp only at hevs ⊢
      rw [happ, hevs]
      exact (by decide : progressContract ([1, 3, 5, 10] ++ [10]) false)

theorem compile_html_progress_shape (o : Oracle) (template : String) (content : CMap) :
    (exceptOk (compile_html o template content).1 = true ∧
      progressList (compile_html o template content).2 = [3, 6, 9, 10])
    ∨ (exceptOk (compile_html o template content).1 = false ∧
      (progressList (compile_html o template content).2 = [3, 10] ∨
        progressList (compile_html o template content).2 = [3, 6, 10] ∨
        progressList (compile_html o template content).2 = [3, 6, 9, 10])) := by
  unfold compile_html compileRender
  rcases hi : generate_email_images o.compileImage content with e | imgs
  · simp only [hi]
    exact Or.inr ⟨rfl, Or.inl rfl⟩
  · simp only [hi]
    rcases hr : TemplateService.render_template o template (dictMerge content imgs)
        with e | html
    · simp only [hr]
      exact Or.inr ⟨rfl, Or.inr (Or.inl rfl)⟩
    · simp only [hr]
      split_ifs with h1 h2
      · exact Or.inr ⟨rfl, Or.inr (Or.inl rfl)⟩
      · exact Or.inr ⟨rfl, Or.inr (Or.inr rfl)⟩
      · exact Or.inl ⟨rfl, rfl⟩

theorem orch_compile_html_progress (o : Oracle) (template : String) (content : CMap) :
    progressContract (progressList (orch_compile_html o template content).2)
      (exceptOk (orch_compile_html o template content).1) := by
  unfold orch_compile_html
  rcases hs : compile_html o template content with ⟨r, evs⟩
  have hshape := compile_html_progress_shape o template content
  rw [hs] at hshape
  cases r with
  | ok html =>
    rcases hshape with ⟨_, hevs⟩ | ⟨hbad, _⟩
    · dsimp only at hevs ⊢
      rw [hevs]
      exact (by decide : progressContract [3, 6, 9, 10] true)
    · simp [exceptOk] at hbad
  | error e =>
    have happ : progressList (evs ++ [("Error: " ++ e.toStr, 10)]) =
        progressList evs ++ [10] := by
      simp [progressList]
    rcases hshape with ⟨hok, _⟩ | ⟨_, hevs | hevs | hevs⟩
    · simp [exceptOk] at hok
    · dsimp only at hevs ⊢
      rw [happ, hevs]
      exact (by decide : progressContract ([3, 10] ++ [10]) false)
    · dsimp only at hevs ⊢
      rw [happ, hevs]
      exact (by decide : progressContract ([3, 6, 10] ++ [10]) false)
    · dsimp only at hevs ⊢
      rw [happ, hevs]
      exact (by decide : progressContract ([3, 6, 9, 10] ++ [10]) false)

/-- Counterexample to claim C7 as stated: in a run whose template chooser
    raises, the template stage emits the terminal progress value 1.0 twice —
    once from the error handler of the agent and once more from that of the orchestrator
    — not exactly once. -/
theorem template_stage_double_done :
    countDone (progressList (create_email chooserDownOracle "x" [] []).templateEvents) = 2 :=
  rfl

/-- Claim C7 (amended): within every stage of every `create_email` run the
    progress sequence is non-decreasing and ends at 1.0; 1.0 is emitted once
    or at most twice — exactly once whenever the stage succeeds, twice only on
    failure, where both the failing agent and the orchestrator emit a terminal
    error update. -/
theorem stage_progress_discipline (o : Oracle) (campaign_intent : String)
    (contact : CMap) (st : AssistantState) :
    progressContract (progressList (create_email o campaign_intent contact st).templateEvents)
      (exceptOk (orch_select_template o campaign_intent).1)
    ∧ progressContract (progressList (create_email o campaign_intent contact st).contentEvents)
      (exceptOk (orch_generate_content o contact campaign_intent).1)
    ∧ progressContract
      (progressList (create_email o campaign_intent contact st).compilationEvents)
      (exceptOk (create_email o campaign_intent contact st).result) := by
  have hTP := orch_select_template_progress o campaign_intent
  have hCP := orch_generate_content_progress o contact campaign_intent
  rcases hT : orch_select_template o campaign_intent with ⟨tr, tevs⟩
  rcases hC : orch_generate_content o contact campaign_intent with ⟨cr, cevs⟩
  rw [hT] at hTP
  rw [hC] at hCP
  cases tr with
  | error e0 =>
    have hrun : create_email o campaign_intent contact st =
        ⟨.error e0, st, tevs, cevs, []⟩ := by
      unfold create_email
      simp only [hT, hC]
    rw [hrun]
    exact ⟨hTP, hCP,
      (by decide : progressContract (progressList []) false)⟩
  | ok t =>
    cases cr with
    | error e0 =>
      have hrun : create_email o campaign_intent contact st =
          ⟨.error e0, st, tevs, cevs, []⟩ := by
        unfold create_email
        simp only [hT, hC]
      rw [hrun]
      exact ⟨hTP, hCP,
        (by decide : progressContract (progressList []) false)⟩
    | ok c =>
      have hHP := orch_compile_html_progress o t c
      rcases hH : orch_compile_html o t c with ⟨hr, hevs⟩
      rw [hH] at hHP
      cases hcd : alookup "campaign_details" st with
      | none =>
        cases hr with
        | error e0 =>
          have hrun : create_email o campaign_intent contact st =
              ⟨.error e0, st, tevs, cevs, hevs⟩ := by
            unfold create_email
            simp only [hT, hC, hcd, hH]
          rw [hrun]
          exact ⟨hTP, hCP, hHP⟩
        | ok html =>
          have hrun : create_email o campaign_intent contact st =
              ⟨.ok ⟨t, c, html⟩,
               setKey "campaign_details"
                 (.dict (dictMerge
                   (dictMerge [] [("template", .str t), ("content", .cmap c)])
                   [("html", .str html)])) st,
               tevs, cevs, hevs⟩ := by
            unfold create_email
            simp only [hT, hC, hcd, hH]
          rw [hrun]
          exact ⟨hTP, hCP, hHP⟩
      | some v =>
        cases v with
        | str s =>
          have hrun : create_email o campaign_intent contact st =
              ⟨.error (.attributeError "update"), st, tevs, cevs, []⟩ := by
            unfold create_email
            simp only [hT, hC, hcd]
          rw [hrun]
          exact ⟨hTP, hCP,
            (by decide : progressContract (progressList []) false)⟩
        | cmap m =>
          have hrun : create_email o campaign_intent contact st =
              ⟨.error (.attributeError "update"), st, tevs, cevs, []⟩ := by
            unfold create_email
            simp only [hT, hC, hcd]
          rw [hrun]
          exact ⟨hTP, hCP,
            (by decide : progressContract (progressList []) false)⟩
        | dict d0 =>
          cases hr with
          | error e0 =>
            have hrun : create_email o campaign_intent contact st =
                ⟨.error e0,
                 setKey "campaign_details"
                   (.dict (dictMerge d0 [("template", .str t), ("content", .cmap c)])) st,
                 tevs, cevs, hevs⟩ := by
              unfold create_email
              simp only [hT, hC, hcd, hH]
            rw [hrun]
            exact ⟨hTP, hCP, hHP⟩
          | ok html =>
            have hrun : create_email o campaign_intent contact st =
                ⟨.ok ⟨t, c, html⟩,
                 setKey "campaign_details"
                   (.dict (dictMerge
                     (dictMerge d0 [("template", .str t), ("content", .cmap c)])
                     [("html", .str html)]))
                   (setKey "campaign_details"
                     (.dict (dictMerge d0 [("template", .str t), ("content", .cmap c)])) st),
                 tevs, cevs, hevs⟩ := by
              unfold create_email
              simp only [hT, hC, hcd, hH]
            rw [hrun]
            exact ⟨hTP, hCP, hHP⟩

/-- Closed instance for the amended C7: the template stage of the successful
    `happyOracle` run satisfies the progress contract with its success flag. -/
theorem stage_progress_discipline_witness :
    progressContract (progressList (create_email happyOracle "hi" [] []).templateEvents)
      (exceptOk (orch_select_template happyOracle "hi").1) :=
  (stage_progress_discipline happyOracle "hi" [] []).1

end EmailCreation
